import Mathlib

/-!
# virt-viewer: the application controller (`src/virt-viewer-app.c`)

A shallow embedding of the controller object `VirtViewerApp`: the ssh tunnel
command builder, transport selection in `virt_viewer_app_activate`, the
session life-cycle handlers and the display registry.

Conventions of the embedding.

* A C string pointer is an `Option String` (`none` is `NULL`); `int` and `gint`
  values are `Int`; file descriptors handed out by the kernel are `Nat`.
* GObject instances (windows, widgets, the session) are identified by a
  natural number; `g_object_new` hands out the next unused identity.
* Every function returns an `Outcome`: the C return value, the controller
  afterwards, and the ordered list of calls it made into its collaborators
  (system calls, the session backend, GTK), as `Effect`s.
* What the collaborators answer (does `socketpair` succeed, what does the
  session's `open` return) is read from an `Env`.
* The file is modelled as built with `HAVE_SOCKETPAIR` and `HAVE_FORK` defined
  and with GLib's precondition checks (`g_return_if_fail`) enabled; `self` is
  always a valid instance, so the `VIRT_VIEWER_IS_APP(self)` checks pass.
* A write past the end of a fixed-size C array is undefined behaviour: the
  model records it as `Effect.buffer_overflow` and the theorems about such a
  call are stated for inputs that fit.
* The virtual methods `initial_connect` and `deactivated` are a parameter
  `klass`; the theorems take the methods installed by
  `virt_viewer_app_class_init`.
-/

namespace VirtViewer

/-! ## Data model -/

/-- A `char *`: `none` is the NULL pointer. -/
abbrev CStr := Option String

/-- Identity of a `VirtViewerWindow` object. -/
abbrev VirtViewerWindow := Nat

/-- Identity of a `GtkWidget` object. -/
abbrev GtkWidget := Nat

/-- Identity of a `VirtViewerSession` object. -/
abbrev VirtViewerSession := Nat

/-- A `VirtViewerDisplay`: its identity and its "nth-display" property. -/
structure VirtViewerDisplay where
  id : Nat
  nth_display : Int
deriving DecidableEq, Repr

/-- The `GHashTable *windows`, keyed by `gint` with `g_int_equal`: the entries
it holds. -/
abbrev GHashTable := List (Int × VirtViewerWindow)

/-- Calls made by the controller into its collaborators, in program order. -/
inductive Effect where
  /-- Call `virt_viewer_app_trace(self, fmt, ...)` -/
  | trace (fmt : String)
  /-- Call `socketpair(PF_UNIX, SOCK_STREAM, 0, fd)` -/
  | sys_socketpair
  /-- Call `fork()` -/
  | sys_fork
  /-- The child's side of `fork`: stdin and stdout become `fd`, then
  `execvp(file, argv)` -/
  | child_execvp (fd : Nat) (file : String) (argv : List String)
  /-- Call `close(fd)` in the parent -/
  | sys_close (fd : Nat)
  /-- Call `socket(AF_UNIX, SOCK_STREAM, 0)` -/
  | sys_socket
  /-- Call `connect(fd, addr, ...)` with `addr.sun_path = path` -/
  | sys_connect (fd : Nat) (path : String)
  /-- Call `virt_viewer_session_open_fd(session, fd)` -/
  | session_open_fd (fd : Int)
  /-- Call `virt_viewer_session_open_host(session, host, port)` -/
  | session_open_host (host port : CStr)
  /-- Call `virt_viewer_session_close(session)` -/
  | session_close
  /-- Call `virt_viewer_app_set_status(self, text)` -/
  | set_status (text : String)
  /-- Call `virt_viewer_window_update_title(window)` -/
  | window_update_title (window : VirtViewerWindow)
  /-- Call `virt_viewer_app_simple_message_dialog(self, fmt, args...)` -/
  | simple_message_dialog (fmt : String) (args : List CStr)
  /-- The yes/no dialog of the auth-refused handler, run to completion -/
  | auth_dialog (address msg : CStr)
  /-- Call `g_idle_add(virt_viewer_app_retryauth, self)` -/
  | g_idle_add_retryauth
  /-- Virtual call `klass->deactivated(self)` -/
  | klass_deactivated
  /-- Virtual call `klass->initial_connect(self)` -/
  | klass_initial_connect
  /-- Call `gtk_main_quit()` -/
  | gtk_main_quit
  /-- Call `g_object_new(VIRT_VIEWER_TYPE_WINDOW, "app", self, "container", c, NULL)` -/
  | window_new (window : VirtViewerWindow) (container : Option GtkWidget)
  /-- Call `gtk_widget_show_all(virt_viewer_window_get_window(window))` -/
  | widget_show_all (window : VirtViewerWindow)
  /-- Call `gtk_widget_hide(GTK_WIDGET(display))` -/
  | widget_hide (display : VirtViewerDisplay)
  /-- Call `virt_viewer_window_set_display(window, display)` -/
  | window_set_display (window : Option VirtViewerWindow) (display : Option VirtViewerDisplay)
  /-- Value destructor of the hash table, `g_object_unref(window)` -/
  | g_object_unref (window : VirtViewerWindow)
  /-- Call `g_warning(...)`, also the warning of a failed `g_warn_if_fail` -/
  | g_warning (msg : String)
  /-- The critical log of a failed `g_return_if_fail` -/
  | g_critical (expr : String)
  /-- Call `DEBUG_LOG(fmt, ...)` -/
  | debug_log (fmt : String)
  /-- Call `g_timeout_add(interval, virt_viewer_app_connect_timer, self)`, which
  returned the source `id` -/
  | g_timeout_add_connect_timer (interval : Nat) (id : Nat)
  /-- Call `gtk_clipboard_set_with_owner(cb, targets, ...,
  virt_viewer_app_clipboard_copy, NULL, self)` -/
  | clipboard_set_with_owner (targets : List String)
  /-- Call `gtk_selection_data_set_text(data, text, -1)` -/
  | selection_data_set_text (text : CStr)
  /-- Call `virt_viewer_session_channel_open_fd(session, channel, fd)` -/
  | session_channel_open_fd (channel : Nat) (fd : Int)
  /-- The child's side of `fork` when a `dup(fd[1])` fails: `_exit(status)`,
  without `execvp` -/
  | child_exit (status : Nat)
  /-- A write of `bytes` bytes into the smaller array `buffer`: the call has left
  defined behaviour, and what is recorded for it from here on is a placeholder -/
  | buffer_overflow (buffer : String) (bytes : Nat)
deriving DecidableEq, Repr

/-- The fields of `struct _VirtViewerAppPrivate`. -/
structure VirtViewerAppPrivate where
  main_window : Option VirtViewerWindow := none
  main_notebook : Option GtkWidget := none
  container : Option GtkWidget := none
  windows : GHashTable := []
  clipboard : CStr := none
  direct : Bool := false
  verbose : Bool := false
  authretry : Bool := false
  started : Bool := false
  fullscreen : Bool := false
  session : Option VirtViewerSession := none
  active : Bool := false
  connected : Bool := false
  reconnect_poll : Nat := 0
  unixsock : CStr := none
  ghost : CStr := none
  gport : CStr := none
  host : CStr := none
  port : Int := 0
  user : CStr := none
  transport : CStr := none
  pretty_address : CStr := none
  guest_name : CStr := none
  grabbed : Bool := false
deriving DecidableEq, Repr

/-- The controller object `VirtViewerApp *self`, together with the allocator
state it lives in: `heap_next` is the identity the next `g_object_new` returns. -/
structure VirtViewerApp where
  priv : VirtViewerAppPrivate := {}
  heap_next : Nat := 0
deriving DecidableEq, Repr

/-- Result of running one function of the controller. -/
structure Outcome (α : Type) where
  ret : α
  self : VirtViewerApp
  effects : List Effect

/-- Answers of the collaborators during one call into the controller. -/
structure Env where
  /-- Answer of `socketpair`: `none` when it fails, else the two descriptors -/
  socketpair : Option (Nat × Nat)
  /-- Answer of `fork` as seen by the parent: `none` for `-1`, else the child's pid -/
  fork : Option Nat
  /-- Answer of `socket`: `none` when it fails, else the descriptor -/
  socket : Option Nat
  /-- Answer of `connect`: `true` when it succeeds -/
  connect : Bool
  /-- Status returned by `virt_viewer_session_open_fd` -/
  session_open_fd : Int → Int
  /-- Status returned by `virt_viewer_session_open_host` -/
  session_open_host : CStr → CStr → Int
  /-- Answer of `g_timeout_add`: GLib source ids are greater than 0, the id
  returned is `timeout_source + 1` -/
  timeout_source : Nat := 0
  /-- Answer of `g_convert(text, -1, "utf-8", "iso8859-1", ...)`: `none` when the
  conversion fails (NULL), else the converted text -/
  g_convert : String → Option String := fun text => some text

/-! ## Strings -/

/-- The `%d` conversion of `sprintf`. -/
def sprintf_d (n : Int) : String :=
  match n with
  | Int.ofNat m => Nat.repr m
  | Int.negSucc m => "-" ++ Nat.repr (m + 1)

/-- The character code as a C `int`. -/
def char_code (c : Char) : Int := (c.toNat : Int)

/-- What GLib's `g_strcasecmp` does to one character:
`isupper(c) ? tolower(c) : c`, in the C locale. -/
def fold_case (c : Char) : Int :=
  if 65 ≤ c.toNat ∧ c.toNat ≤ 90 then char_code c + 32 else char_code c

/-- GLib's `g_strcasecmp` on the characters of two C strings: walk both while
neither is at its terminating NUL, return the difference of the first pair that
differs after case folding, and at the end the difference of the two current
bytes (the terminator counts as 0). -/
def g_strcasecmp_chars : List Char → List Char → Int
  | c1 :: s1, c2 :: s2 =>
    if c1.toNat = 0 ∨ c2.toNat = 0 then char_code c1 - char_code c2
    else if fold_case c1 ≠ fold_case c2 then fold_case c1 - fold_case c2
    else g_strcasecmp_chars s1 s2
  | c1 :: _, [] => char_code c1
  | [], c2 :: _ => - char_code c2
  | [], [] => 0

/-- The characters of a C string held in a list: those before the first NUL. -/
def c_chars (l : List Char) : List Char := l.takeWhile (fun c => c.toNat ≠ 0)

/-- C's `strlen` on a string: the bytes (UTF-8) before the first NUL. -/
def strlen (s : String) : Nat := (String.mk (c_chars s.toList)).utf8ByteSize

/-- GLib's `g_strcasecmp(s1, s2)`. -/
def g_strcasecmp (s1 s2 : String) : Int :=
  g_strcasecmp_chars s1.toList s2.toList

/-! ## The ssh tunnel -/

/-- One element of the local array `const char *cmd[10]`. -/
inductive Slot where
  /-- Not written yet -/
  | uninit
  /-- Holds the pointer `p` -/
  | ptr (p : CStr)
deriving DecidableEq, Repr

/-- The locals `cmd` and `n` of `virt_viewer_app_open_tunnel_ssh`;
`in_bounds` stays `true` as long as every write hit one of the array's slots. -/
structure CmdBuf where
  cmd : List Slot
  n : Nat
  in_bounds : Bool
deriving DecidableEq, Repr

/-- The declarations `const char *cmd[10]; int n = 0;`. -/
def CmdBuf.init : CmdBuf :=
  { cmd := List.replicate 10 Slot.uninit, n := 0, in_bounds := true }

/-- The statement `cmd[n++] = p;`. -/
def CmdBuf.put (b : CmdBuf) (p : CStr) : CmdBuf :=
  { cmd := b.cmd.set b.n (Slot.ptr p),
    n := b.n + 1,
    in_bounds := b.in_bounds && decide (b.n < b.cmd.length) }

/-- The slots written so far, `cmd[0] .. cmd[n-1]`. -/
def CmdBuf.written (b : CmdBuf) : List Slot := b.cmd.take b.n

/-- The argument strings `execvp` reads from an array: those before the first
slot that is NULL (or not a written pointer). -/
def argv_of : List Slot → List String
  | Slot.ptr (some s) :: rest => s :: argv_of rest
  | _ => []

/-- The part of `virt_viewer_app_open_tunnel_ssh` that fills `cmd`
(lines 256-281). -/
def virt_viewer_app_open_tunnel_ssh_cmd (sshhost : CStr) (sshport : Int)
    (sshuser host port unixsock : CStr) : CmdBuf :=
  let sshport := if sshport = 0 then 22 else sshport
  let portstr := sprintf_d sshport
  let b := CmdBuf.init
  let b := b.put (some "ssh")
  let b := b.put (some "-p")
  let b := b.put (some portstr)
  let b := match sshuser with
    | some _ => (b.put (some "-l")).put sshuser
    | none => b
  let b := b.put sshhost
  let b := b.put (some "nc")
  let b := match port with
    | some _ => (b.put host).put port
    | none => (b.put (some "-U")).put unixsock
  b.put none

/-- Is `fd[1]` still open in the child after `close(fd[0]); close(0);
close(1);` (lines 232-234)? It is unless it is descriptor 0 or 1 (or `fd[0]`
itself); only then do the two `dup(fd[1])` of lines 235-238 succeed, giving the
child `fd[1]` as its stdin and stdout. -/
def child_dup_ok (fd0 fd1 : Nat) : Bool :=
  decide (fd1 ≠ fd0) && decide (fd1 ≠ 0) && decide (fd1 ≠ 1)

/-- The child's branch of `virt_viewer_app_open_tunnel` (`pid == 0`, lines
231-242): with `fd[1]` duplicated onto stdin and stdout it calls
`execvp("ssh", cmd)`; when `dup(fd[1])` fails it calls `_exit(1)` before. -/
def virt_viewer_app_open_tunnel_child (fd0 fd1 : Nat) (cmd : List Slot) : Effect :=
  if child_dup_ok fd0 fd1 then Effect.child_execvp fd1 "ssh" (argv_of cmd)
  else Effect.child_exit 1

/-- The function `virt_viewer_app_open_tunnel(cmd)`, from the parent's side:
the descriptor kept by the caller, or `-1`. What the child does is recorded
between the parent's `fork` and `close(fd[1])`. -/
def virt_viewer_app_open_tunnel (env : Env) (cmd : List Slot) : Int × List Effect :=
  match env.socketpair with
  | none => (-1, [Effect.sys_socketpair])
  | some (fd0, fd1) =>
    match env.fork with
    | none =>
      (-1, [Effect.sys_socketpair, Effect.sys_fork, Effect.sys_close fd0, Effect.sys_close fd1])
    | some _ =>
      ((fd0 : Int), [Effect.sys_socketpair, Effect.sys_fork,
        virt_viewer_app_open_tunnel_child fd0 fd1 cmd, Effect.sys_close fd1])

/-- Does the child of the tunnel reach `execvp`: `socketpair` and `fork`
succeed and the child can duplicate `fd[1]`? -/
def tunnel_child_execs (env : Env) : Bool :=
  match env.socketpair, env.fork with
  | some fds, some _ => child_dup_ok fds.1 fds.2
  | _, _ => false

/-- The function `virt_viewer_app_open_tunnel_ssh`. -/
def virt_viewer_app_open_tunnel_ssh (env : Env) (sshhost : CStr) (sshport : Int)
    (sshuser host port unixsock : CStr) : Int × List Effect :=
  virt_viewer_app_open_tunnel env
    (virt_viewer_app_open_tunnel_ssh_cmd sshhost sshport sshuser host port unixsock).cmd

/-- The size of the array `sun_path` of `struct sockaddr_un` (Linux). -/
def sun_path_size : Nat := 108

/-- Does `strcpy(addr.sun_path, path)` stay inside `sun_path`: the bytes of the
path and its terminating NUL are at most `sun_path_size`? -/
def fits_sun_path (path : String) : Bool := decide (strlen path < sun_path_size)

/-- The function `virt_viewer_app_open_unix_sock(unixsock)`. Line 294 copies
the path into `addr.sun_path` with an unchecked `strcpy`: a path that does not
fit writes past the end of `addr` on the stack, which is undefined behaviour.
The model records that as `Effect.buffer_overflow` and goes no further; the
`-1` it returns there is a placeholder. -/
def virt_viewer_app_open_unix_sock (env : Env) (unixsock : String) : Int × List Effect :=
  if !fits_sun_path unixsock then
    (-1, [Effect.buffer_overflow "addr.sun_path" (strlen unixsock + 1)])
  else
    match env.socket with
    | none => (-1, [Effect.sys_socket])
    | some fd =>
      if env.connect then ((fd : Int), [Effect.sys_socket, Effect.sys_connect fd unixsock])
      else (-1, [Effect.sys_socket, Effect.sys_connect fd unixsock, Effect.sys_close fd])


/-- The argument vector as the specification words it: `ssh -p <port>`,
`-l <user>` only with a user, the relay host, `nc`, then either target host and
port or `-U` and the socket path, and the terminating NULL. -/
def tunnel_argv_spec (h : CStr) (p : Int) (u th tp s : CStr) : List CStr :=
  [some "ssh", some "-p", some (if p = 0 then "22" else sprintf_d p)]
    ++ (if u.isSome then [some "-l", u] else [])
    ++ [h, some "nc"]
    ++ (if tp.isSome then [th, tp] else [some "-U", s])
    ++ [none]

/-! ## Activation -/

/-- The test `priv->transport && g_strcasecmp(priv->transport, "ssh") == 0 &&
!priv->direct` of `virt_viewer_app_activate` and `virt_viewer_app_channel_open`. -/
def use_ssh_tunnel (priv : VirtViewerAppPrivate) : Bool :=
  match priv.transport with
  | some t => decide (g_strcasecmp t "ssh" = 0) && !priv.direct
  | none => false

/-- Does an activation with these parameters stay within defined behaviour:
the ssh tunnel is selected (no path is copied), or no socket path is set, or
the socket path fits `sun_path`? -/
def activate_defined (priv : VirtViewerAppPrivate) : Bool :=
  use_ssh_tunnel priv ||
    match priv.unixsock with
    | none => true
    | some path => fits_sun_path path

/-- The function `virt_viewer_app_update_title`: `update_title` on every window
of the table. -/
def virt_viewer_app_update_title (self : VirtViewerApp) : List Effect :=
  self.priv.windows.map (fun e => Effect.window_update_title e.2)

/-- Lines 550-567 of `virt_viewer_app_activate`: open the session on `fd` when
`fd >= 0` and on the target host and port otherwise, then mark the controller
active. `pre` holds the calls made before. -/
def virt_viewer_app_activate_open (env : Env) (self : VirtViewerApp) (fd : Int)
    (pre : List Effect) : Outcome Int :=
  let priv := self.priv
  let opened : Int × List Effect :=
    if fd ≥ 0 then
      (env.session_open_fd fd, [Effect.session_open_fd fd])
    else
      (env.session_open_host priv.ghost priv.gport,
        [Effect.trace "Opening direct TCP connection to display at %s:%s\n",
         Effect.session_open_host priv.ghost priv.gport])
  let self1 : VirtViewerApp :=
    { self with priv := { priv with connected := false, active := true, grabbed := false } }
  { ret := opened.1,
    self := self1,
    effects := pre ++ opened.2 ++ [Effect.set_status "Connecting to graphic server"]
      ++ virt_viewer_app_update_title self1 }

/-- The function `virt_viewer_app_activate`. -/
def virt_viewer_app_activate (env : Env) (self : VirtViewerApp) : Outcome Int :=
  let priv := self.priv
  if priv.active then
    { ret := -1, self := self, effects := [] }
  else if use_ssh_tunnel priv then
    let traces : List Effect :=
      [ (if priv.gport.isSome then
          Effect.trace "Opening indirect TCP connection to display at %s:%s\n"
         else
          Effect.trace "Opening indirect UNIX connection to display at %s\n"),
        Effect.trace "Setting up SSH tunnel via %s@%s:%d\n" ]
    let t := virt_viewer_app_open_tunnel_ssh env priv.host priv.port priv.user
      priv.ghost priv.gport priv.unixsock
    if t.1 < 0 then
      { ret := -1, self := self, effects := traces ++ t.2 }
    else
      virt_viewer_app_activate_open env self t.1 (traces ++ t.2)
  else
    match priv.unixsock with
    | some path =>
      let traces : List Effect :=
        [Effect.trace "Opening direct UNIX connection to display at %s"]
      let t := virt_viewer_app_open_unix_sock env path
      if t.1 < 0 then
        { ret := -1, self := self, effects := traces ++ t.2 }
      else
        virt_viewer_app_activate_open env self t.1 (traces ++ t.2)
    | none => virt_viewer_app_activate_open env self (-1) []

/-! ## Life cycle of the session -/

/-- The virtual methods of `VirtViewerAppClass` used here. -/
structure VirtViewerAppClass where
  initial_connect : Env → VirtViewerApp → Outcome Int
  deactivated : VirtViewerApp → Outcome Unit

/-- The function `virt_viewer_app_default_initial_connect`. -/
def virt_viewer_app_default_initial_connect (env : Env) (self : VirtViewerApp) : Outcome Int :=
  virt_viewer_app_activate env self

/-- The function `virt_viewer_app_default_deactivated`. -/
def virt_viewer_app_default_deactivated (self : VirtViewerApp) : Outcome Unit :=
  { ret := (),
    self := self,
    effects := [Effect.set_status "Guest domain has shutdown",
      Effect.trace "Guest %s display has disconnected, shutting down",
      Effect.gtk_main_quit] }

/-- The methods installed by `virt_viewer_app_class_init`. -/
def virt_viewer_app_class_init : VirtViewerAppClass :=
  { initial_connect := virt_viewer_app_default_initial_connect,
    deactivated := virt_viewer_app_default_deactivated }

/-- The function `virt_viewer_app_initial_connect`: dispatch to the class. -/
def virt_viewer_app_initial_connect (klass : VirtViewerAppClass) (env : Env)
    (self : VirtViewerApp) : Outcome Int :=
  let r := klass.initial_connect env self
  { ret := r.ret, self := r.self, effects := Effect.klass_initial_connect :: r.effects }

/-- The idle callback `virt_viewer_app_retryauth`; the `gboolean` it returns
tells the main loop whether to keep the source. -/
def virt_viewer_app_retryauth (klass : VirtViewerAppClass) (env : Env)
    (self : VirtViewerApp) : Outcome Bool :=
  let r := virt_viewer_app_initial_connect klass env self
  { ret := false, self := r.self, effects := r.effects }

/-- The function `virt_viewer_app_deactivated`: dispatch to the class. -/
def virt_viewer_app_deactivated (klass : VirtViewerAppClass) (self : VirtViewerApp) :
    Outcome Unit :=
  let r := klass.deactivated self
  { ret := (), self := r.self, effects := Effect.klass_deactivated :: r.effects }

/-- The function `virt_viewer_app_deactivate`. -/
def virt_viewer_app_deactivate (klass : VirtViewerAppClass) (self : VirtViewerApp) :
    Outcome Unit :=
  let priv := self.priv
  if !priv.active then
    { ret := (), self := self, effects := [] }
  else
    let closing : List Effect := if priv.session.isSome then [Effect.session_close] else []
    let self1 : VirtViewerApp :=
      { self with priv := { priv with connected := false, active := false, grabbed := false } }
    let titles := virt_viewer_app_update_title self1
    if self1.priv.authretry then
      { ret := (),
        self := { self1 with priv := { self1.priv with authretry := false } },
        effects := closing ++ titles ++ [Effect.g_idle_add_retryauth] }
    else
      let r := virt_viewer_app_deactivated klass self1
      { ret := (), self := r.self, effects := closing ++ titles ++ r.effects }

/-- The handler `virt_viewer_app_connected`. -/
def virt_viewer_app_connected (self : VirtViewerApp) : Outcome Unit :=
  { ret := (),
    self := { self with priv := { self.priv with connected := true } },
    effects := [Effect.set_status "Connected to graphic server"] }

/-- The handler `virt_viewer_app_disconnected`. -/
def virt_viewer_app_disconnected (klass : VirtViewerAppClass) (self : VirtViewerApp) :
    Outcome Unit :=
  let priv := self.priv
  let report : List Effect :=
    if !priv.connected then
      [Effect.simple_message_dialog "Unable to connect to the graphic server %s"
        [priv.pretty_address]]
    else []
  let r := virt_viewer_app_deactivate klass self
  { ret := (), self := r.self, effects := report ++ r.effects }

/-- GTK's `GTK_RESPONSE_YES`. -/
def GTK_RESPONSE_YES : Int := -8

/-- The handler `virt_viewer_app_auth_refused`; `response` is what
`gtk_dialog_run` returns. -/
def virt_viewer_app_auth_refused (response : Int) (msg : CStr) (self : VirtViewerApp) :
    Outcome Unit :=
  let priv := self.priv
  { ret := (),
    self := { self with priv :=
      { priv with authretry := if response = GTK_RESPONSE_YES then true else false } },
    effects := [Effect.auth_dialog priv.pretty_address msg] }

/-- The handler `virt_viewer_app_auth_failed`. -/
def virt_viewer_app_auth_failed (msg : CStr) (self : VirtViewerApp) : Outcome Unit :=
  { ret := (),
    self := self,
    effects := [Effect.simple_message_dialog
      "Unable to authenticate with remote desktop server at %s"
      [self.priv.pretty_address, msg]] }

/-! ## The display registry -/

/-- GLib's `g_hash_table_lookup`. -/
def g_hash_table_lookup : GHashTable → Int → Option VirtViewerWindow
  | [], _ => none
  | (k, v) :: rest, key => if k = key then some v else g_hash_table_lookup rest key

/-- GLib's `g_hash_table_remove`: drop the entry found for `key`; the table
afterwards. -/
def g_hash_table_remove : GHashTable → Int → GHashTable
  | [], _ => []
  | (k, v) :: rest, key => if k = key then rest else (k, v) :: g_hash_table_remove rest key

/-- GLib's `g_hash_table_insert`: replace the value of an entry with an equal
key, else add an entry. -/
def g_hash_table_insert : GHashTable → Int → VirtViewerWindow → GHashTable
  | [], key, value => [(key, value)]
  | (k, v) :: rest, key, value =>
    if k = key then (k, value) :: rest else (k, v) :: g_hash_table_insert rest key value

/-- The function `virt_viewer_app_window_new`: a new window object. -/
def virt_viewer_app_window_new (self : VirtViewerApp) (container : Option GtkWidget) :
    Outcome VirtViewerWindow :=
  { ret := self.heap_next,
    self := { self with heap_next := self.heap_next + 1 },
    effects := [Effect.window_new self.heap_next container] }

/-- The function `virt_viewer_app_get_nth_window`. -/
def virt_viewer_app_get_nth_window (self : VirtViewerApp) (nth : Int) :
    Option VirtViewerWindow :=
  g_hash_table_lookup self.priv.windows nth

/-- The function `virt_viewer_app_remove_nth_window`. -/
def virt_viewer_app_remove_nth_window (self : VirtViewerApp) (nth : Int) : Outcome Bool :=
  if nth = 0 then
    { ret := false, self := self, effects := [Effect.g_critical "nth != 0"] }
  else
    match g_hash_table_lookup self.priv.windows nth with
    | some w =>
      { ret := true,
        self := { self with priv :=
          { self.priv with windows := g_hash_table_remove self.priv.windows nth } },
        effects := [Effect.g_object_unref w] }
    | none =>
      { ret := false, self := self, effects := [Effect.g_warning "removed"] }

/-- The function `virt_viewer_app_set_nth_window`. -/
def virt_viewer_app_set_nth_window (self : VirtViewerApp) (nth : Int)
    (win : VirtViewerWindow) : Outcome Unit :=
  if (virt_viewer_app_get_nth_window self nth).isSome then
    { ret := (), self := self,
      effects := [Effect.g_critical "virt_viewer_app_get_nth_window(self, nth) == NULL"] }
  else
    { ret := (),
      self := { self with priv :=
        { self.priv with windows := g_hash_table_insert self.priv.windows nth win } },
      effects := [] }

/-- The handler `virt_viewer_app_display_added`. -/
def virt_viewer_app_display_added (display : VirtViewerDisplay) (self : VirtViewerApp) :
    Outcome Unit :=
  let priv := self.priv
  let nth := display.nth_display
  if nth = 0 then
    { ret := (), self := self,
      effects := [Effect.window_set_display priv.main_window (some display)] }
  else if priv.container.isSome then
    { ret := (), self := self,
      effects := [Effect.g_warning "multi-head not yet supported within container"] }
  else if (virt_viewer_app_get_nth_window self nth).isSome then
    { ret := (), self := self,
      effects := [Effect.g_critical "virt_viewer_app_get_nth_window(self, nth) == NULL"] }
  else
    let w := virt_viewer_app_window_new self none
    let r := virt_viewer_app_set_nth_window w.self nth w.ret
    { ret := (),
      self := r.self,
      effects := w.effects ++ [Effect.widget_show_all w.ret] ++ r.effects
        ++ [Effect.window_set_display (some w.ret) (some display)] }

/-- The handler `virt_viewer_app_display_removed`. -/
def virt_viewer_app_display_removed (display : VirtViewerDisplay) (self : VirtViewerApp) :
    Outcome Unit :=
  let nth := display.nth_display
  let win := virt_viewer_app_get_nth_window self nth
  let pre : List Effect := [Effect.widget_hide display, Effect.window_set_display win none]
  if nth ≠ 0 then
    let r := virt_viewer_app_remove_nth_window self nth
    { ret := (), self := r.self, effects := pre ++ r.effects }
  else
    { ret := (), self := self, effects := pre }

/-- Collaborator `virt_viewer_window_get_notebook`: the notebook widget of a
window, identified with the window that owns it. -/
def virt_viewer_window_get_notebook (window : VirtViewerWindow) : GtkWidget := window

/-- The functions `virt_viewer_app_init` and `virt_viewer_app_constructor`: an
object with zeroed private data, an empty table and the construct-only property
`container`; then the main window is created and registered as window 0.
`heap_next` is the allocator state at construction. -/
def virt_viewer_app_constructor (container : Option GtkWidget) (heap_next : Nat) :
    Outcome Unit :=
  let self0 : VirtViewerApp :=
    { priv := { container := container, windows := [] }, heap_next := heap_next }
  let w := virt_viewer_app_window_new self0 self0.priv.container
  let self1 : VirtViewerApp :=
    { w.self with priv :=
      { w.self.priv with
        main_window := some w.ret,
        main_notebook := some (virt_viewer_window_get_notebook w.ret) } }
  let r := virt_viewer_app_set_nth_window self1 0 w.ret
  { ret := (), self := r.self, effects := w.effects ++ r.effects }

/-- The two display events of the session. -/
inductive DisplayEvent where
  /-- Signal "session-display-added" -/
  | added (display : VirtViewerDisplay)
  /-- Signal "session-display-removed" -/
  | removed (display : VirtViewerDisplay)
deriving DecidableEq, Repr

/-- Deliver one display event to its handler. -/
def display_event (self : VirtViewerApp) : DisplayEvent → Outcome Unit
  | DisplayEvent.added d => virt_viewer_app_display_added d self
  | DisplayEvent.removed d => virt_viewer_app_display_removed d self

/-- Deliver a sequence of display events, first to last. -/
def display_events (self : VirtViewerApp) : List DisplayEvent → VirtViewerApp
  | [] => self
  | ev :: rest => display_events (display_event self ev).self rest

/-- The keys of the table, one per entry. -/
def g_hash_table_keys (t : GHashTable) : List Int := t.map Prod.fst


/-- The facts kept by every display event: the main window is `main` and is
window 0 of the table, no key and no window occurs twice in the table, and
every window of the table was allocated before `heap_next`. -/
def registry_inv (self : VirtViewerApp) (main : VirtViewerWindow) : Prop :=
  self.priv.main_window = some main ∧
  g_hash_table_lookup self.priv.windows 0 = some main ∧
  (g_hash_table_keys self.priv.windows).Nodup ∧
  (self.priv.windows.map Prod.snd).Nodup ∧
  ∀ e ∈ self.priv.windows, e.2 < self.heap_next

/-! ## The reconnect timer -/

/-- The timer callback `virt_viewer_app_connect_timer`; the `gboolean` it
returns tells the main loop whether to keep the timer (`false` removes it). -/
def virt_viewer_app_connect_timer (klass : VirtViewerAppClass) (env : Env)
    (self : VirtViewerApp) : Outcome Bool :=
  let attempt : VirtViewerApp × List Effect :=
    if !self.priv.active then
      let r := virt_viewer_app_initial_connect klass env self
      (r.self, r.effects ++ (if r.ret < 0 then [Effect.gtk_main_quit] else []))
    else (self, [])
  let self1 := attempt.1
  if self1.priv.active then
    { ret := false,
      self := { self1 with priv := { self1.priv with reconnect_poll := 0 } },
      effects := Effect.debug_log "Connect timer fired" :: attempt.2 }
  else
    { ret := true, self := self1,
      effects := Effect.debug_log "Connect timer fired" :: attempt.2 }

/-- The function `virt_viewer_app_start_reconnect_poll`. -/
def virt_viewer_app_start_reconnect_poll (env : Env) (self : VirtViewerApp) : Outcome Unit :=
  if self.priv.reconnect_poll ≠ 0 then
    { ret := (), self := self, effects := [] }
  else
    { ret := (),
      self := { self with priv := { self.priv with reconnect_poll := env.timeout_source + 1 } },
      effects := [Effect.g_timeout_add_connect_timer 500 (env.timeout_source + 1)] }

/-- How many timers does the list register? -/
def timers_registered (es : List Effect) : Nat :=
  es.countP fun e => match e with
    | Effect.g_timeout_add_connect_timer _ _ => true
    | _ => false

/-! ## The clipboard -/

/-- The function `virt_viewer_app_clipboard_copy`: the stored text is handed to
the selection. -/
def virt_viewer_app_clipboard_copy (self : VirtViewerApp) : Outcome Unit :=
  { ret := (), self := self, effects := [Effect.selection_data_set_text self.priv.clipboard] }

/-- The handler `virt_viewer_app_server_cut_text`. -/
def virt_viewer_app_server_cut_text (env : Env) (text : CStr) (self : VirtViewerApp) :
    Outcome Unit :=
  match text with
  | none => { ret := (), self := self, effects := [] }
  | some t =>
    let self1 : VirtViewerApp :=
      { self with priv := { self.priv with clipboard := env.g_convert t } }
    if self1.priv.clipboard.isSome then
      { ret := (), self := self1,
        effects := [Effect.clipboard_set_with_owner
          ["UTF8_STRING", "COMPOUND_TEXT", "TEXT", "STRING"]] }
    else
      { ret := (), self := self1, effects := [] }

/-- Does the list register a clipboard offer? -/
def offers_clipboard (es : List Effect) : Bool :=
  es.any fun e => match e with
    | Effect.clipboard_set_with_owner _ => true
    | _ => false

/-! ## Connection parameters -/

/-- The `%s` conversion of `g_strdup_printf`, which prints a NULL pointer as
`(null)`. -/
def printf_s (s : CStr) : String :=
  match s with
  | some text => text
  | none => "(null)"

/-- The function `virt_viewer_app_update_pretty_address`. -/
def virt_viewer_app_update_pretty_address (self : VirtViewerApp) : VirtViewerApp :=
  let priv := self.priv
  if priv.gport.isSome then
    { self with priv :=
      { priv with pretty_address := some (printf_s priv.ghost ++ ":" ++ printf_s priv.gport) } }
  else
    { self with priv :=
      { priv with pretty_address := some (printf_s priv.host ++ ":" ++ printf_s priv.unixsock) } }

/-- The function `virt_viewer_app_set_connect_info`. The argument `port` only
reaches `DEBUG_LOG`: the field is assigned the constant 0 (line 1099). -/
def virt_viewer_app_set_connect_info (self : VirtViewerApp)
    (host ghost gport transport unixsock user : CStr) (port : Int) : Outcome Unit :=
  let _ := port
  let self1 : VirtViewerApp :=
    { self with priv :=
      { self.priv with
        host := host, ghost := ghost, gport := gport, transport := transport,
        unixsock := unixsock, user := user, port := 0 } }
  { ret := (),
    self := virt_viewer_app_update_pretty_address self1,
    effects := [Effect.debug_log "Set connect info: %s,%s,%s,%s,%s,%s,%d"] }

/-- The function `virt_viewer_app_free_connect_info`. -/
def virt_viewer_app_free_connect_info (self : VirtViewerApp) : Outcome Unit :=
  virt_viewer_app_set_connect_info self none none none none none none 0

/-! ## Channels -/

/-- The handler `virt_viewer_app_channel_open`. -/
def virt_viewer_app_channel_open (env : Env) (channel : Nat) (self : VirtViewerApp) :
    Outcome Unit :=
  let priv := self.priv
  if use_ssh_tunnel priv then
    let t := virt_viewer_app_open_tunnel_ssh env priv.host priv.port priv.user
      priv.ghost priv.gport none
    if t.1 < 0 then
      { ret := (), self := self,
        effects := t.2 ++ [Effect.simple_message_dialog "Connect to ssh failed." []] }
    else
      { ret := (), self := self,
        effects := t.2 ++ [Effect.session_channel_open_fd channel t.1] }
  else
    { ret := (), self := self,
      effects := [Effect.simple_message_dialog
        "Can't connect to channel, SSH only supported." []] }

/-- The argument vectors of the children spawned in the list. -/
def spawned_argvs : List Effect → List (List String)
  | [] => []
  | Effect.child_execvp _ _ argv :: rest => argv :: spawned_argvs rest
  | _ :: rest => spawned_argvs rest

/-- A 32-bit `int`. -/
def is_int32 (n : Int) : Prop := -2147483648 ≤ n ∧ n ≤ 2147483647

/-- The bytes `sprintf(portstr, "%d", n)` stores: the characters and the
terminating NUL. -/
def sprintf_d_size (n : Int) : Nat := (sprintf_d n).utf8ByteSize + 1

/-- An environment in which `g_convert` fails. -/
def env_no_convert : Env :=
  { socketpair := some (5, 6), fork := some 100, socket := some 7, connect := true,
    session_open_fd := fun _ => 0, session_open_host := fun _ _ => 0,
    g_convert := fun _ => none }

/-- A controller that holds the clipboard text "old". -/
def app_clip : VirtViewerApp :=
  { priv := { main_window := some 0, windows := [(0, 0)], session := some 1,
              clipboard := some "old" },
    heap_next := 2 }

/-- A controller with a session and no connection parameters yet. -/
def app_fresh : VirtViewerApp :=
  { priv := { main_window := some 0, windows := [(0, 0)], session := some 1 },
    heap_next := 2 }

/-! ## Observations on effect lists and sample inputs -/

/-- Does the list hold a call of the session's open-by-handle? -/
def opens_by_handle (es : List Effect) : Bool :=
  es.any fun e => match e with
    | Effect.session_open_fd _ => true
    | _ => false

/-- Does the list hold a call of the session's open(host, service)? -/
def opens_by_host (es : List Effect) : Bool :=
  es.any fun e => match e with
    | Effect.session_open_host _ _ => true
    | _ => false

/-- Does the list hold transport work: a system call of the tunnel or of the
local socket? -/
def does_transport_work (es : List Effect) : Bool :=
  es.any fun e => match e with
    | Effect.sys_socketpair => true
    | Effect.sys_fork => true
    | Effect.child_execvp _ _ _ => true
    | Effect.sys_socket => true
    | Effect.sys_connect _ _ => true
    | _ => false

/-- Does the list hold an error dialog? -/
def reports_error (es : List Effect) : Bool :=
  es.any fun e => match e with
    | Effect.simple_message_dialog _ _ => true
    | _ => false

/-- Does the list hold the creation of a window? -/
def creates_window (es : List Effect) : Bool :=
  es.any fun e => match e with
    | Effect.window_new _ _ => true
    | _ => false

/-- Does the list hold a call that attaches a display to a window? -/
def attaches_display (es : List Effect) : Bool :=
  es.any fun e => match e with
    | Effect.window_set_display _ (some _) => true
    | _ => false

/-- Is the effect a call into the main loop or a virtual method of the class
(idle source, class hooks, `gtk_main_quit`)? -/
def is_loop_effect : Effect → Bool
  | Effect.g_idle_add_retryauth => true
  | Effect.klass_deactivated => true
  | Effect.klass_initial_connect => true
  | Effect.gtk_main_quit => true
  | _ => false

/-- An environment in which every collaborator succeeds: descriptors 5 and 6
from `socketpair`, child 100 from `fork`, descriptor 7 from `socket`, and the
session's open operations return 0. -/
def env_ok : Env :=
  { socketpair := some (5, 6), fork := some 100, socket := some 7, connect := true,
    session_open_fd := fun _ => 0, session_open_host := fun _ _ => 0 }

/-- An environment in which `socketpair` fails. -/
def env_no_socketpair : Env := { env_ok with socketpair := none }

/-- An environment in which the session's open operations report failure. -/
def env_open_fails : Env :=
  { env_ok with session_open_fd := fun _ => -1, session_open_host := fun _ _ => -1 }

/-- A controller with a session, connection parameters for a direct TCP
connection to `guest:5900`, not active. -/
def app_tcp : VirtViewerApp :=
  { priv := { main_window := some 0, windows := [(0, 0)], session := some 1,
              ghost := some "guest", gport := some "5900",
              pretty_address := some "guest:5900" },
    heap_next := 2 }

/-- The controller `app_tcp` with the ssh transport through `relay`. -/
def app_ssh : VirtViewerApp :=
  { app_tcp with priv :=
    { app_tcp.priv with transport := some "SSH", host := some "relay", user := some "u" } }

/-- The controller `app_tcp` while a connection attempt is under way. -/
def app_active : VirtViewerApp :=
  { app_tcp with priv := { app_tcp.priv with active := true } }

/-- An environment in which `socketpair` hands out descriptors 0 and 1 (the
caller runs with stdin and stdout closed). -/
def env_std_closed : Env := { env_ok with socketpair := some (0, 1) }

/-- The controller `app_tcp`, not active, with the connected flag set. -/
def app_stale : VirtViewerApp :=
  { app_tcp with priv := { app_tcp.priv with connected := true } }

/-! ## Lemmas on the transport helpers and on activation -/

theorem g_strcasecmp_chars_eq_zero_iff (l1 l2 : List Char) :
    g_strcasecmp_chars l1 l2 = 0 ↔
      (c_chars l1).map fold_case = (c_chars l2).map fold_case := by
  induction l1 generalizing l2 with
  | nil =>
    cases l2 with
    | nil => simp [g_strcasecmp_chars, c_chars]
    | cons c2 s2 =>
      by_cases h2 : c2.toNat = 0
      · simp [g_strcasecmp_chars, c_chars, char_code, h2]
      · simp [g_strcasecmp_chars, c_chars, char_code, h2]
  | cons c1 s1 ih =>
    cases l2 with
    | nil =>
      by_cases h1 : c1.toNat = 0
      · simp [g_strcasecmp_chars, c_chars, char_code, h1]
      · simp [g_strcasecmp_chars, c_chars, char_code, h1]
    | cons c2 s2 =>
      by_cases h1 : c1.toNat = 0
      · by_cases h2 : c2.toNat = 0
        · simp [g_strcasecmp_chars, c_chars, char_code, h1, h2]
        · simp [g_strcasecmp_chars, c_chars, char_code, h1, h2]
      · by_cases h2 : c2.toNat = 0
        · simp [g_strcasecmp_chars, c_chars, char_code, h1, h2]
        · by_cases hf : fold_case c1 = fold_case c2
          · have := ih s2
            simp only [c_chars] at this
            simp [g_strcasecmp_chars, c_chars, h1, h2, hf, this]
          · simp [g_strcasecmp_chars, c_chars, h1, h2, hf]
            omega


theorem open_tunnel_neg_iff (env : Env) (cmd : List Slot) :
    (virt_viewer_app_open_tunnel env cmd).1 < 0 ↔ (env.socketpair = none ∨ env.fork = none) := by
  unfold virt_viewer_app_open_tunnel
  cases hs : env.socketpair with
  | none => simp
  | some fds =>
    cases hf : env.fork with
    | none => simp
    | some pid =>
      simp

theorem open_tunnel_effects (env : Env) (cmd : List Slot) :
    opens_by_handle (virt_viewer_app_open_tunnel env cmd).2 = false ∧
    opens_by_host (virt_viewer_app_open_tunnel env cmd).2 = false ∧
    Effect.sys_socket ∉ (virt_viewer_app_open_tunnel env cmd).2 := by
  unfold virt_viewer_app_open_tunnel virt_viewer_app_open_tunnel_child
  cases env.socketpair with
  | none => simp [opens_by_handle, opens_by_host]
  | some fds =>
    cases env.fork with
    | none => simp [opens_by_handle, opens_by_host]
    | some pid => by_cases hd : child_dup_ok fds.1 fds.2 = true <;> simp [opens_by_handle, opens_by_host, hd]

theorem open_unix_sock_effects (env : Env) (path : String) :
    opens_by_handle (virt_viewer_app_open_unix_sock env path).2 = false ∧
    opens_by_host (virt_viewer_app_open_unix_sock env path).2 = false ∧
    Effect.sys_socketpair ∉ (virt_viewer_app_open_unix_sock env path).2 ∧
    Effect.sys_fork ∉ (virt_viewer_app_open_unix_sock env path).2 := by
  unfold virt_viewer_app_open_unix_sock
  cases fits_sun_path path with
  | false => simp [opens_by_handle, opens_by_host]
  | true =>
    cases env.socket with
    | none => simp [opens_by_handle, opens_by_host]
    | some fd => cases env.connect <;> simp [opens_by_handle, opens_by_host]

theorem update_title_effects (self : VirtViewerApp) :
    opens_by_handle (virt_viewer_app_update_title self) = false ∧
    opens_by_host (virt_viewer_app_update_title self) = false ∧
    does_transport_work (virt_viewer_app_update_title self) = false ∧
    reports_error (virt_viewer_app_update_title self) = false ∧
    (∀ e ∈ virt_viewer_app_update_title self, ∃ w, e = Effect.window_update_title w) := by
  unfold virt_viewer_app_update_title
  generalize self.priv.windows = t
  induction t with
  | nil => simp [opens_by_handle, opens_by_host, does_transport_work, reports_error]
  | cons e t ih =>
    obtain ⟨h1, h2, h3, h4, h5⟩ := ih
    refine ⟨?_, ?_, ?_, ?_, ?_⟩
    · simpa [opens_by_handle] using h1
    · simpa [opens_by_host] using h2
    · simpa [does_transport_work] using h3
    · simpa [reports_error] using h4
    · intro x hx
      rcases List.mem_cons.mp hx with hx | hx
      · exact ⟨e.2, hx⟩
      · exact h5 x hx

theorem activate_open_spec (env : Env) (self : VirtViewerApp) (fd : Int) (pre : List Effect) :
    (virt_viewer_app_activate_open env self fd pre).ret
      = (if 0 ≤ fd then env.session_open_fd fd
         else env.session_open_host self.priv.ghost self.priv.gport) ∧
    (virt_viewer_app_activate_open env self fd pre).self
      = { self with priv :=
          { self.priv with connected := false, active := true, grabbed := false } } ∧
    (∀ e ∈ pre, e ∈ (virt_viewer_app_activate_open env self fd pre).effects) ∧
    (∀ e, e ∈ (virt_viewer_app_activate_open env self fd pre).effects →
        e ∈ pre ∨ (0 ≤ fd ∧ e = Effect.session_open_fd fd) ∨
        (fd < 0 ∧ e = Effect.session_open_host self.priv.ghost self.priv.gport) ∨
        (fd < 0 ∧ e = Effect.trace "Opening direct TCP connection to display at %s:%s\n") ∨
        e = Effect.set_status "Connecting to graphic server" ∨
        ∃ w, e = Effect.window_update_title w) ∧
    (0 ≤ fd → Effect.session_open_fd fd ∈ (virt_viewer_app_activate_open env self fd pre).effects) ∧
    (fd < 0 → Effect.session_open_host self.priv.ghost self.priv.gport
        ∈ (virt_viewer_app_activate_open env self fd pre).effects) := by
  have ht := (update_title_effects
    { self with priv :=
      { self.priv with connected := false, active := true, grabbed := false } }).2.2.2.2
  by_cases hfd : 0 ≤ fd
  · have hn : ¬ fd < 0 := by omega
    refine ⟨?_, ?_, ?_, ?_, ?_, ?_⟩ <;>
      simp [virt_viewer_app_activate_open, hfd, hn]
    · intro e he; exact Or.inl he
    · intro e he
      rcases he with he | he | he | he
      · exact Or.inl he
      · exact Or.inr (Or.inl he)
      · exact Or.inr (Or.inr (Or.inl he))
      · exact Or.inr (Or.inr (Or.inr (ht e he)))
  · have hn : fd < 0 := by omega
    refine ⟨?_, ?_, ?_, ?_, ?_, ?_⟩ <;>
      simp [virt_viewer_app_activate_open, hfd, hn]
    · intro e he; exact Or.inl he
    · intro e he
      rcases he with he | he | he | he | he
      · exact Or.inl he
      · exact Or.inr (Or.inr (Or.inl he))
      · exact Or.inr (Or.inl he)
      · exact Or.inr (Or.inr (Or.inr (Or.inl he)))
      · exact Or.inr (Or.inr (Or.inr (Or.inr (ht e he))))

theorem activate_open_obs (env : Env) (self : VirtViewerApp) (fd : Int) (pre : List Effect) :
    opens_by_handle (virt_viewer_app_activate_open env self fd pre).effects
      = (opens_by_handle pre || decide (0 ≤ fd)) ∧
    opens_by_host (virt_viewer_app_activate_open env self fd pre).effects
      = (opens_by_host pre || decide (fd < 0)) ∧
    does_transport_work (virt_viewer_app_activate_open env self fd pre).effects
      = does_transport_work pre := by
  obtain ⟨h1, h2, h3, -, -⟩ := update_title_effects
    { self with priv :=
      { self.priv with connected := false, active := true, grabbed := false } }
  unfold opens_by_handle at h1
  unfold opens_by_host at h2
  unfold does_transport_work at h3
  by_cases hfd : 0 ≤ fd
  · have hn : ¬ fd < 0 := by omega
    simp [virt_viewer_app_activate_open, hfd, hn, opens_by_handle, opens_by_host,
      does_transport_work, List.any_append, h1, h2, h3]
  · have hn : fd < 0 := by omega
    simp [virt_viewer_app_activate_open, hfd, hn, opens_by_handle, opens_by_host,
      does_transport_work, List.any_append, h1, h2, h3]

theorem traces_obs (tr : List Effect) (h : ∀ e ∈ tr, ∃ f, e = Effect.trace f) :
    opens_by_handle tr = false ∧ opens_by_host tr = false ∧ does_transport_work tr = false ∧
    Effect.sys_socket ∉ tr ∧ Effect.sys_socketpair ∉ tr ∧ Effect.sys_fork ∉ tr := by
  induction tr with
  | nil => simp [opens_by_handle, opens_by_host, does_transport_work]
  | cons e tr ih =>
    obtain ⟨f, hf⟩ := h e (List.mem_cons_self _ _)
    obtain ⟨h1, h2, h3, h4, h5, h6⟩ := ih (fun x hx => h x (List.mem_cons_of_mem _ hx))
    subst hf
    unfold opens_by_handle at h1 ⊢
    unfold opens_by_host at h2 ⊢
    unfold does_transport_work at h3 ⊢
    simp [h1, h2, h3, h4, h5, h6]

theorem activate_ssh_eq (env : Env) (self : VirtViewerApp) (h : self.priv.active = false)
    (hs : use_ssh_tunnel self.priv = true) :
    ∃ tr, (∀ e ∈ tr, ∃ f, e = Effect.trace f) ∧
      virt_viewer_app_activate env self =
        (if (virt_viewer_app_open_tunnel_ssh env self.priv.host self.priv.port self.priv.user
              self.priv.ghost self.priv.gport self.priv.unixsock).1 < 0 then
          { ret := -1, self := self,
            effects := tr ++ (virt_viewer_app_open_tunnel_ssh env self.priv.host self.priv.port
              self.priv.user self.priv.ghost self.priv.gport self.priv.unixsock).2 }
        else
          virt_viewer_app_activate_open env self
            (virt_viewer_app_open_tunnel_ssh env self.priv.host self.priv.port self.priv.user
              self.priv.ghost self.priv.gport self.priv.unixsock).1
            (tr ++ (virt_viewer_app_open_tunnel_ssh env self.priv.host self.priv.port
              self.priv.user self.priv.ghost self.priv.gport self.priv.unixsock).2)) := by
  refine ⟨[ (if self.priv.gport.isSome then
          Effect.trace "Opening indirect TCP connection to display at %s:%s\n"
         else
          Effect.trace "Opening indirect UNIX connection to display at %s\n"),
        Effect.trace "Setting up SSH tunnel via %s@%s:%d\n" ], ?_, ?_⟩
  pick_goal 2
  · simp only [virt_viewer_app_activate, h, hs, if_true, Bool.false_eq_true, if_false]
  · intro e he
    simp only [List.mem_cons, List.mem_singleton, List.not_mem_nil, or_false] at he
    rcases he with he | he
    · split at he <;> exact ⟨_, he⟩
    · exact ⟨_, he⟩

theorem activate_unix_eq (env : Env) (self : VirtViewerApp) (h : self.priv.active = false)
    (hs : use_ssh_tunnel self.priv = false) (path : String)
    (hp : self.priv.unixsock = some path) :
    virt_viewer_app_activate env self =
      (if (virt_viewer_app_open_unix_sock env path).1 < 0 then
        { ret := -1, self := self,
          effects := [Effect.trace "Opening direct UNIX connection to display at %s"]
            ++ (virt_viewer_app_open_unix_sock env path).2 }
      else
        virt_viewer_app_activate_open env self (virt_viewer_app_open_unix_sock env path).1
          ([Effect.trace "Opening direct UNIX connection to display at %s"]
            ++ (virt_viewer_app_open_unix_sock env path).2)) := by
  simp only [virt_viewer_app_activate, h, hs, hp, Bool.false_eq_true, if_false]

theorem activate_tcp_eq (env : Env) (self : VirtViewerApp) (h : self.priv.active = false)
    (hs : use_ssh_tunnel self.priv = false) (hp : self.priv.unixsock = none) :
    virt_viewer_app_activate env self = virt_viewer_app_activate_open env self (-1) [] := by
  simp only [virt_viewer_app_activate, h, hs, hp, Bool.false_eq_true, if_false]


theorem activate_inactive_cases (env : Env) (self : VirtViewerApp)
    (h : self.priv.active = false) :
    ((virt_viewer_app_activate env self).ret = -1 ∧
      (virt_viewer_app_activate env self).self = self ∧
      opens_by_host (virt_viewer_app_activate env self).effects = false ∧
      opens_by_handle (virt_viewer_app_activate env self).effects = false) ∨
    (∃ fd pre, virt_viewer_app_activate env self
      = virt_viewer_app_activate_open env self fd pre) := by
  by_cases hs : use_ssh_tunnel self.priv = true
  · obtain ⟨tr, htr, heq⟩ := activate_ssh_eq env self h hs
    obtain ⟨a1, a2, -, -, -, -⟩ := traces_obs tr htr
    obtain ⟨b1, b2, -⟩ := open_tunnel_effects env
      (virt_viewer_app_open_tunnel_ssh_cmd self.priv.host self.priv.port self.priv.user
        self.priv.ghost self.priv.gport self.priv.unixsock).cmd
    have b1t : opens_by_handle (virt_viewer_app_open_tunnel_ssh env self.priv.host
      self.priv.port self.priv.user self.priv.ghost self.priv.gport
      self.priv.unixsock).2 = false := b1
    have b2t : opens_by_host (virt_viewer_app_open_tunnel_ssh env self.priv.host
      self.priv.port self.priv.user self.priv.ghost self.priv.gport
      self.priv.unixsock).2 = false := b2
    by_cases hneg : (virt_viewer_app_open_tunnel_ssh env self.priv.host self.priv.port
        self.priv.user self.priv.ghost self.priv.gport self.priv.unixsock).1 < 0
    · left
      rw [heq, if_pos hneg]
      unfold opens_by_handle at a1 b1t ⊢
      unfold opens_by_host at a2 b2t ⊢
      simp [List.any_append, a1, a2, b1t, b2t]
    · right
      exact ⟨_, _, by rw [heq, if_neg hneg]⟩
  · have hs : use_ssh_tunnel self.priv = false := by simpa using hs
    cases hp : self.priv.unixsock with
    | some path =>
      have heq := activate_unix_eq env self h hs path hp
      obtain ⟨b1, b2, -, -⟩ := open_unix_sock_effects env path
      by_cases hneg : (virt_viewer_app_open_unix_sock env path).1 < 0
      · left
        rw [heq, if_pos hneg]
        unfold opens_by_handle at b1 ⊢
        unfold opens_by_host at b2 ⊢
        simp [b1, b2]
      · right
        exact ⟨_, _, by rw [heq, if_neg hneg]⟩
    | none =>
      right
      exact ⟨_, _, activate_tcp_eq env self h hs hp⟩

/-! ## Lemmas on deactivation -/

theorem deactivate_default_spec (self : VirtViewerApp) (h : self.priv.active = true) :
    (virt_viewer_app_deactivate virt_viewer_app_class_init self).self
      = { self with priv := { self.priv with
            connected := false, active := false, grabbed := false, authretry := false } } ∧
    (virt_viewer_app_deactivate virt_viewer_app_class_init self).effects
      = (if self.priv.session.isSome then [Effect.session_close] else [])
        ++ self.priv.windows.map (fun e => Effect.window_update_title e.2)
        ++ (if self.priv.authretry then [Effect.g_idle_add_retryauth]
            else [Effect.klass_deactivated, Effect.set_status "Guest domain has shutdown",
              Effect.trace "Guest %s display has disconnected, shutting down",
              Effect.gtk_main_quit]) := by
  obtain ⟨priv, heap⟩ := self
  cases ha : priv.authretry <;>
    simp_all [virt_viewer_app_deactivate, virt_viewer_app_deactivated,
      virt_viewer_app_class_init, virt_viewer_app_default_deactivated,
      virt_viewer_app_update_title]

theorem deactivate_inactive (klass : VirtViewerAppClass) (self : VirtViewerApp)
    (h : self.priv.active = false) :
    (virt_viewer_app_deactivate klass self).self = self ∧
    (virt_viewer_app_deactivate klass self).effects = [] := by
  simp [virt_viewer_app_deactivate, h]

theorem mem_titles (x : Effect) (t : GHashTable)
    (hx : x ∈ t.map (fun e => Effect.window_update_title e.2)) :
    ∃ w, x = Effect.window_update_title w := by
  obtain ⟨e, -, he⟩ := List.mem_map.mp hx
  exact ⟨e.2, he.symm⟩

theorem open_tunnel_plain (env : Env) (cmd : List Slot) :
    ∀ e ∈ (virt_viewer_app_open_tunnel env cmd).2, is_loop_effect e = false := by
  unfold virt_viewer_app_open_tunnel virt_viewer_app_open_tunnel_child
  cases env.socketpair with
  | none => simp [is_loop_effect]
  | some fds =>
    cases env.fork with
    | none => simp [is_loop_effect]
    | some pid => by_cases hd : child_dup_ok fds.1 fds.2 = true <;> simp [is_loop_effect, hd]

theorem open_unix_sock_plain (env : Env) (path : String) :
    ∀ e ∈ (virt_viewer_app_open_unix_sock env path).2, is_loop_effect e = false := by
  unfold virt_viewer_app_open_unix_sock
  cases fits_sun_path path with
  | false => simp [is_loop_effect]
  | true =>
    cases env.socket with
    | none => simp [is_loop_effect]
    | some fd => cases env.connect <;> simp [is_loop_effect]

theorem activate_open_plain (env : Env) (self : VirtViewerApp) (fd : Int) (pre : List Effect)
    (hpre : ∀ e ∈ pre, is_loop_effect e = false) :
    ∀ e ∈ (virt_viewer_app_activate_open env self fd pre).effects, is_loop_effect e = false := by
  intro e he
  rcases (activate_open_spec env self fd pre).2.2.2.1 e he with hx | hx | hx | hx | hx | hx
  · exact hpre e hx
  · rw [hx.2]; rfl
  · rw [hx.2]; rfl
  · rw [hx.2]; rfl
  · rw [hx]; rfl
  · obtain ⟨w, hw⟩ := hx
    rw [hw]; rfl

theorem activate_plain (env : Env) (self : VirtViewerApp) :
    (∀ e ∈ (virt_viewer_app_activate env self).effects, is_loop_effect e = false) ∧
    (virt_viewer_app_activate env self).self.priv.authretry = self.priv.authretry := by
  cases h : self.priv.active with
  | true => simp [virt_viewer_app_activate, h]
  | false =>
    have hauth : ∀ fd pre, (virt_viewer_app_activate_open env self fd pre).self.priv.authretry
        = self.priv.authretry := by
      intro fd pre
      rw [(activate_open_spec env self fd pre).2.1]
    by_cases hs : use_ssh_tunnel self.priv = true
    · obtain ⟨tr, htr, heq⟩ := activate_ssh_eq env self h hs
      have hpre : ∀ e ∈ tr ++ (virt_viewer_app_open_tunnel_ssh env self.priv.host
          self.priv.port self.priv.user self.priv.ghost self.priv.gport
          self.priv.unixsock).2, is_loop_effect e = false := by
        intro e he
        rcases List.mem_append.mp he with he | he
        · obtain ⟨f, hf⟩ := htr e he
          rw [hf]; rfl
        · exact open_tunnel_plain env _ e he
      rw [heq]
      split
      · exact ⟨hpre, rfl⟩
      · exact ⟨activate_open_plain env self _ _ hpre, hauth _ _⟩
    · have hs : use_ssh_tunnel self.priv = false := by simpa using hs
      cases hp : self.priv.unixsock with
      | some path =>
        have hpre : ∀ e ∈ [Effect.trace "Opening direct UNIX connection to display at %s"]
            ++ (virt_viewer_app_open_unix_sock env path).2, is_loop_effect e = false := by
          intro e he
          rcases List.mem_append.mp he with he | he
          · rw [List.mem_singleton.mp he]; rfl
          · exact open_unix_sock_plain env path e he
        rw [activate_unix_eq env self h hs path hp]
        split
        · exact ⟨hpre, rfl⟩
        · exact ⟨activate_open_plain env self _ _ hpre, hauth _ _⟩
      | none =>
        rw [activate_tcp_eq env self h hs hp]
        exact ⟨activate_open_plain env self _ _ (by simp), hauth _ _⟩

theorem disconnected_default_effects (self : VirtViewerApp) (h : self.priv.active = true) :
    (virt_viewer_app_disconnected virt_viewer_app_class_init self).effects
      = (if !self.priv.connected then
          [Effect.simple_message_dialog "Unable to connect to the graphic server %s"
            [self.priv.pretty_address]] else [])
        ++ ((if self.priv.session.isSome then [Effect.session_close] else [])
        ++ self.priv.windows.map (fun e => Effect.window_update_title e.2)
        ++ (if self.priv.authretry then [Effect.g_idle_add_retryauth]
            else [Effect.klass_deactivated, Effect.set_status "Guest domain has shutdown",
              Effect.trace "Guest %s display has disconnected, shutting down",
              Effect.gtk_main_quit])) := by
  rw [← (deactivate_default_spec self h).2]
  rfl

theorem titles_count_zero (x : Effect) (t : GHashTable)
    (hx : ∀ w, x ≠ Effect.window_update_title w) :
    List.count x (t.map (fun e => Effect.window_update_title e.2)) = 0 := by
  apply List.count_eq_zero.mpr
  intro hmem
  obtain ⟨w, hw⟩ := mem_titles _ _ hmem
  exact hx w hw

/-! ## Lemmas on the display registry -/

theorem lookup_eq_none_iff (t : GHashTable) (key : Int) :
    g_hash_table_lookup t key = none ↔ key ∉ g_hash_table_keys t := by
  induction t with
  | nil => simp [g_hash_table_lookup, g_hash_table_keys]
  | cons e t ih =>
    obtain ⟨k, v⟩ := e
    by_cases hk : k = key
    · simp [g_hash_table_lookup, g_hash_table_keys, hk]
    · have hk2 : ¬ key = k := fun h => hk h.symm
      simp only [g_hash_table_keys] at ih
      simp [g_hash_table_lookup, g_hash_table_keys, hk, hk2, ih]

theorem lookup_some_mem (t : GHashTable) (key : Int) (w : VirtViewerWindow)
    (h : g_hash_table_lookup t key = some w) : (key, w) ∈ t := by
  induction t with
  | nil => simp [g_hash_table_lookup] at h
  | cons e t ih =>
    obtain ⟨k, v⟩ := e
    by_cases hk : k = key
    · simp [g_hash_table_lookup, hk] at h
      simp [hk, h]
    · simp [g_hash_table_lookup, hk] at h
      exact List.mem_cons_of_mem _ (ih h)

theorem insert_of_lookup_none (t : GHashTable) (key : Int) (w : VirtViewerWindow)
    (h : g_hash_table_lookup t key = none) :
    g_hash_table_insert t key w = t ++ [(key, w)] := by
  induction t with
  | nil => rfl
  | cons e t ih =>
    obtain ⟨k, v⟩ := e
    by_cases hk : k = key
    · simp [g_hash_table_lookup, hk] at h
    · simp [g_hash_table_lookup, hk] at h
      simp [g_hash_table_insert, hk, ih h]

theorem lookup_append_of_some (t u : GHashTable) (key : Int) (w : VirtViewerWindow)
    (h : g_hash_table_lookup t key = some w) :
    g_hash_table_lookup (t ++ u) key = some w := by
  induction t with
  | nil => simp [g_hash_table_lookup] at h
  | cons e t ih =>
    obtain ⟨k, v⟩ := e
    by_cases hk : k = key
    · simp [g_hash_table_lookup, hk] at h ⊢
      exact h
    · simp [g_hash_table_lookup, hk] at h ⊢
      exact ih h

theorem remove_sublist (t : GHashTable) (key : Int) :
    List.Sublist (g_hash_table_remove t key) t := by
  induction t with
  | nil => exact List.Sublist.refl _
  | cons e t ih =>
    obtain ⟨k, v⟩ := e
    by_cases hk : k = key
    · simp [g_hash_table_remove, hk]
    · simp [g_hash_table_remove, hk, ih]

theorem lookup_remove_self (t : GHashTable) (key : Int)
    (h : (g_hash_table_keys t).Nodup) :
    g_hash_table_lookup (g_hash_table_remove t key) key = none := by
  induction t with
  | nil => rfl
  | cons e t ih =>
    obtain ⟨k, v⟩ := e
    have hn : k ∉ g_hash_table_keys t ∧ (g_hash_table_keys t).Nodup := by
      simpa [g_hash_table_keys] using h
    by_cases hk : k = key
    · subst hk
      simp only [g_hash_table_remove, if_true]
      exact (lookup_eq_none_iff t k).mpr hn.1
    · simp [g_hash_table_remove, g_hash_table_lookup, hk, ih hn.2]

theorem lookup_remove_ne (t : GHashTable) (key j : Int) (hj : j ≠ key) :
    g_hash_table_lookup (g_hash_table_remove t key) j = g_hash_table_lookup t j := by
  induction t with
  | nil => rfl
  | cons e t ih =>
    obtain ⟨k, v⟩ := e
    by_cases hk : k = key
    · subst hk
      have hkj : ¬ k = j := fun h => hj h.symm
      simp [g_hash_table_remove, g_hash_table_lookup, hkj]
    · by_cases hkj : k = j
      · subst hkj
        simp [g_hash_table_remove, g_hash_table_lookup, hk]
      · simp [g_hash_table_remove, g_hash_table_lookup, hk, hkj, ih]

theorem lookup_injective (t : GHashTable) (i j : Int) (w : VirtViewerWindow)
    (hv : (t.map Prod.snd).Nodup)
    (hi : g_hash_table_lookup t i = some w) (hj : g_hash_table_lookup t j = some w) :
    i = j := by
  have mi := lookup_some_mem t i w hi
  have mj := lookup_some_mem t j w hj
  have := List.inj_on_of_nodup_map hv mi mj rfl
  exact congrArg Prod.fst this

theorem display_added_new (d : VirtViewerDisplay) (self : VirtViewerApp)
    (h0 : d.nth_display ≠ 0) (hc : self.priv.container.isSome = false)
    (hl : g_hash_table_lookup self.priv.windows d.nth_display = none) :
    (virt_viewer_app_display_added d self).self
      = { priv := { self.priv with
            windows := self.priv.windows ++ [(d.nth_display, self.heap_next)] },
          heap_next := self.heap_next + 1 } := by
  simp [virt_viewer_app_display_added, h0, hc, virt_viewer_app_get_nth_window, hl,
    virt_viewer_app_window_new, virt_viewer_app_set_nth_window,
    insert_of_lookup_none _ _ _ hl]

theorem display_added_refused (d : VirtViewerDisplay) (self : VirtViewerApp)
    (h : d.nth_display = 0 ∨ self.priv.container.isSome = true ∨
      (g_hash_table_lookup self.priv.windows d.nth_display).isSome = true) :
    (virt_viewer_app_display_added d self).self = self := by
  unfold virt_viewer_app_display_added
  simp only [virt_viewer_app_get_nth_window]
  split_ifs <;> first | rfl | (exfalso; simp_all)

theorem display_added_inv (d : VirtViewerDisplay) (self : VirtViewerApp)
    (main : VirtViewerWindow) (h : registry_inv self main) :
    registry_inv (virt_viewer_app_display_added d self).self main := by
  by_cases hr : d.nth_display = 0 ∨ self.priv.container.isSome = true ∨
      (g_hash_table_lookup self.priv.windows d.nth_display).isSome = true
  · rw [display_added_refused d self hr]
    exact h
  · have h0 : d.nth_display ≠ 0 := fun e => hr (Or.inl e)
    have hc : self.priv.container.isSome = false := by
      cases hx : self.priv.container.isSome
      · rfl
      · exact absurd (Or.inr (Or.inl hx)) hr
    have hl : g_hash_table_lookup self.priv.windows d.nth_display = none := by
      cases hx : g_hash_table_lookup self.priv.windows d.nth_display
      · rfl
      · exact absurd (Or.inr (Or.inr (by rw [hx]; rfl))) hr
    rw [display_added_new d self h0 hc hl]
    obtain ⟨i1, i2, i3, i4, i5⟩ := h
    refine ⟨i1, lookup_append_of_some _ _ _ _ i2, ?_, ?_, ?_⟩
    · have hk := (lookup_eq_none_iff _ _).mp hl
      simp only [g_hash_table_keys] at hk i3 ⊢
      rw [List.map_append, List.nodup_append]
      refine ⟨i3, by simp, ?_⟩
      intro a ha hb
      have : a = d.nth_display := by simpa using hb
      exact hk (this ▸ ha)
    · show ((self.priv.windows ++ [(d.nth_display, self.heap_next)]).map Prod.snd).Nodup
      rw [List.map_append, List.nodup_append]
      refine ⟨i4, by simp, ?_⟩
      intro a ha hb
      have hb : a = self.heap_next := by simpa using hb
      obtain ⟨e, he, hea⟩ := List.mem_map.mp ha
      have hlt := i5 e he
      rw [hea, hb] at hlt
      exact Nat.lt_irrefl _ hlt
    · intro e he
      show e.2 < self.heap_next + 1
      rcases List.mem_append.mp he with he | he
      · exact Nat.lt_succ_of_lt (i5 e he)
      · have : e = (d.nth_display, self.heap_next) := by simpa using he
        rw [this]
        simp

theorem display_removed_self (d : VirtViewerDisplay) (self : VirtViewerApp) :
    (virt_viewer_app_display_removed d self).self
      = if d.nth_display ≠ 0 ∧
          (g_hash_table_lookup self.priv.windows d.nth_display).isSome = true then
          { self with priv := { self.priv with
              windows := g_hash_table_remove self.priv.windows d.nth_display } }
        else self := by
  unfold virt_viewer_app_display_removed virt_viewer_app_remove_nth_window
  by_cases h0 : d.nth_display = 0
  · simp [h0]
  · cases hl : g_hash_table_lookup self.priv.windows d.nth_display <;> simp [h0, hl]

theorem display_removed_inv (d : VirtViewerDisplay) (self : VirtViewerApp)
    (main : VirtViewerWindow) (h : registry_inv self main) :
    registry_inv (virt_viewer_app_display_removed d self).self main := by
  rw [display_removed_self]
  split
  · rename_i hc
    obtain ⟨i1, i2, i3, i4, i5⟩ := h
    have hsub := remove_sublist self.priv.windows d.nth_display
    refine ⟨i1, ?_, ?_, ?_, ?_⟩
    · show g_hash_table_lookup (g_hash_table_remove self.priv.windows d.nth_display) 0
        = some main
      rw [lookup_remove_ne _ _ _ (fun e => hc.1 e.symm)]
      exact i2
    · exact List.Nodup.sublist (List.Sublist.map Prod.fst hsub) i3
    · exact List.Nodup.sublist (List.Sublist.map Prod.snd hsub) i4
    · intro e he
      exact i5 e (hsub.subset he)
  · exact h

theorem constructor_inv (container : Option GtkWidget) (heap : Nat) :
    (virt_viewer_app_constructor container heap).self.priv.windows = [(0, heap)] ∧
    (virt_viewer_app_constructor container heap).self.priv.main_window = some heap ∧
    (virt_viewer_app_constructor container heap).self.priv.container = container ∧
    registry_inv (virt_viewer_app_constructor container heap).self heap := by
  refine ⟨rfl, rfl, rfl, rfl, ?_, ?_, ?_, ?_⟩
  · simp [virt_viewer_app_constructor, virt_viewer_app_set_nth_window,
      virt_viewer_app_get_nth_window, virt_viewer_app_window_new, g_hash_table_lookup,
      g_hash_table_insert]
  · simp [virt_viewer_app_constructor, virt_viewer_app_set_nth_window,
      virt_viewer_app_get_nth_window, virt_viewer_app_window_new, g_hash_table_lookup,
      g_hash_table_insert, g_hash_table_keys]
  · simp [virt_viewer_app_constructor, virt_viewer_app_set_nth_window,
      virt_viewer_app_get_nth_window, virt_viewer_app_window_new, g_hash_table_lookup,
      g_hash_table_insert]
  · simp [virt_viewer_app_constructor, virt_viewer_app_set_nth_window,
      virt_viewer_app_get_nth_window, virt_viewer_app_window_new, g_hash_table_lookup,
      g_hash_table_insert]

theorem display_events_inv (evs : List DisplayEvent) (self : VirtViewerApp)
    (main : VirtViewerWindow) (h : registry_inv self main) :
    registry_inv (display_events self evs) main := by
  induction evs generalizing self with
  | nil => exact h
  | cons ev rest ih =>
    apply ih
    cases ev with
    | added d => exact display_added_inv d self main h
    | removed d => exact display_removed_inv d self main h

/-! ## Lemmas on the timer, the connection parameters and the tunnel command -/

theorem activate_keeps_timer (env : Env) (self : VirtViewerApp) :
    (virt_viewer_app_activate env self).self.priv.reconnect_poll = self.priv.reconnect_poll := by
  cases h : self.priv.active with
  | true => simp [virt_viewer_app_activate, h]
  | false =>
    rcases activate_inactive_cases env self h with ⟨-, hs, -, -⟩ | ⟨fd, pre, heq⟩
    · rw [hs]
    · rw [heq, (activate_open_spec env self fd pre).2.1]

theorem connect_timer_active (env : Env) (self : VirtViewerApp)
    (h : self.priv.active = true) :
    (virt_viewer_app_connect_timer virt_viewer_app_class_init env self).ret = false ∧
    (virt_viewer_app_connect_timer virt_viewer_app_class_init env self).self
      = { self with priv := { self.priv with reconnect_poll := 0 } } ∧
    (virt_viewer_app_connect_timer virt_viewer_app_class_init env self).effects
      = [Effect.debug_log "Connect timer fired"] := by
  simp [virt_viewer_app_connect_timer, h]

theorem connect_timer_inactive (env : Env) (self : VirtViewerApp)
    (h : self.priv.active = false) :
    (virt_viewer_app_connect_timer virt_viewer_app_class_init env self).ret
      = !(virt_viewer_app_activate env self).self.priv.active ∧
    (virt_viewer_app_connect_timer virt_viewer_app_class_init env self).self.priv.active
      = (virt_viewer_app_activate env self).self.priv.active ∧
    (virt_viewer_app_connect_timer virt_viewer_app_class_init env self).self.priv.reconnect_poll
      = (if (virt_viewer_app_activate env self).self.priv.active then 0
         else self.priv.reconnect_poll) ∧
    (virt_viewer_app_connect_timer virt_viewer_app_class_init env self).effects
      = Effect.debug_log "Connect timer fired" :: Effect.klass_initial_connect ::
        ((virt_viewer_app_activate env self).effects
          ++ (if (virt_viewer_app_activate env self).ret < 0 then [Effect.gtk_main_quit]
              else [])) := by
  have hk := activate_keeps_timer env self
  cases ha : (virt_viewer_app_activate env self).self.priv.active <;>
    simp [virt_viewer_app_connect_timer, h, virt_viewer_app_initial_connect,
      virt_viewer_app_class_init, virt_viewer_app_default_initial_connect, ha, hk]

theorem spawned_argvs_append (a b : List Effect) :
    spawned_argvs (a ++ b) = spawned_argvs a ++ spawned_argvs b := by
  induction a with
  | nil => rfl
  | cons e a ih => cases e <;> simp [spawned_argvs, ih]

theorem spawned_argvs_titles (self : VirtViewerApp) :
    spawned_argvs (virt_viewer_app_update_title self) = [] := by
  unfold virt_viewer_app_update_title
  generalize self.priv.windows = t
  induction t with
  | nil => rfl
  | cons e t ih => simpa [spawned_argvs] using ih

theorem spawned_argvs_traces (tr : List Effect) (h : ∀ e ∈ tr, ∃ f, e = Effect.trace f) :
    spawned_argvs tr = [] := by
  induction tr with
  | nil => rfl
  | cons e tr ih =>
    obtain ⟨f, hf⟩ := h e (List.mem_cons_self _ _)
    subst hf
    simpa [spawned_argvs] using ih (fun x hx => h x (List.mem_cons_of_mem _ hx))

theorem spawned_argvs_open_tunnel (env : Env) (cmd : List Slot) :
    spawned_argvs (virt_viewer_app_open_tunnel env cmd).2
      = (if tunnel_child_execs env then [argv_of cmd] else []) := by
  unfold virt_viewer_app_open_tunnel virt_viewer_app_open_tunnel_child tunnel_child_execs
  cases env.socketpair with
  | none => simp [spawned_argvs]
  | some fds =>
    cases env.fork with
    | none => simp [spawned_argvs]
    | some pid => by_cases hd : child_dup_ok fds.1 fds.2 = true <;> simp [spawned_argvs, hd]

theorem spawned_argvs_open_unix_sock (env : Env) (path : String) :
    spawned_argvs (virt_viewer_app_open_unix_sock env path).2 = [] := by
  unfold virt_viewer_app_open_unix_sock
  cases fits_sun_path path with
  | false => simp [spawned_argvs]
  | true =>
    cases env.socket with
    | none => simp [spawned_argvs]
    | some fd => cases env.connect <;> simp [spawned_argvs]

theorem spawned_argvs_activate_open (env : Env) (self : VirtViewerApp) (fd : Int)
    (pre : List Effect) :
    spawned_argvs (virt_viewer_app_activate_open env self fd pre).effects
      = spawned_argvs pre := by
  have ht := spawned_argvs_titles
    { self with priv :=
      { self.priv with connected := false, active := true, grabbed := false } }
  unfold virt_viewer_app_activate_open
  simp only [spawned_argvs_append, ht]
  split <;> simp [spawned_argvs]

theorem activate_spawned (env : Env) (self : VirtViewerApp) :
    ∀ argv ∈ spawned_argvs (virt_viewer_app_activate env self).effects,
      argv = argv_of (virt_viewer_app_open_tunnel_ssh_cmd self.priv.host self.priv.port
        self.priv.user self.priv.ghost self.priv.gport self.priv.unixsock).cmd := by
  cases h : self.priv.active with
  | true => simp [virt_viewer_app_activate, h, spawned_argvs]
  | false =>
    by_cases hs : use_ssh_tunnel self.priv = true
    · obtain ⟨tr, htr, heq⟩ := activate_ssh_eq env self h hs
      have hpre : spawned_argvs (tr ++ (virt_viewer_app_open_tunnel_ssh env self.priv.host
          self.priv.port self.priv.user self.priv.ghost self.priv.gport
          self.priv.unixsock).2)
          = (if tunnel_child_execs env then
              [argv_of (virt_viewer_app_open_tunnel_ssh_cmd self.priv.host self.priv.port
                self.priv.user self.priv.ghost self.priv.gport self.priv.unixsock).cmd]
             else []) := by
        rw [spawned_argvs_append, spawned_argvs_traces tr htr]
        exact spawned_argvs_open_tunnel env _
      intro argv hmem
      rw [heq] at hmem
      split at hmem
      · rw [hpre] at hmem
        split at hmem <;> simp at hmem
        exact hmem
      · rw [spawned_argvs_activate_open, hpre] at hmem
        split at hmem <;> simp at hmem
        exact hmem
    · have hs : use_ssh_tunnel self.priv = false := by simpa using hs
      cases hp : self.priv.unixsock with
      | some path =>
        intro argv hmem
        rw [activate_unix_eq env self h hs path hp] at hmem
        split at hmem
        · simp [spawned_argvs_append, spawned_argvs, spawned_argvs_open_unix_sock] at hmem
        · rw [spawned_argvs_activate_open] at hmem
          simp [spawned_argvs_append, spawned_argvs, spawned_argvs_open_unix_sock] at hmem
      | none =>
        intro argv hmem
        rw [activate_tcp_eq env self h hs hp, spawned_argvs_activate_open] at hmem
        simp [spawned_argvs] at hmem

theorem tunnel_child_execs_handle (env : Env) (cmd : List Slot)
    (hx : tunnel_child_execs env = true) :
    ¬ (virt_viewer_app_open_tunnel env cmd).1 < 0 := by
  intro hn
  unfold tunnel_child_execs at hx
  rcases (open_tunnel_neg_iff env cmd).mp hn with h | h
  · rw [h] at hx; simp at hx
  · rw [h] at hx
    cases hsp : env.socketpair <;> rw [hsp] at hx <;> simp at hx

theorem activate_spawns_tunnel (env : Env) (self : VirtViewerApp)
    (h : self.priv.active = false) (hs : use_ssh_tunnel self.priv = true)
    (hx : tunnel_child_execs env = true) :
    spawned_argvs (virt_viewer_app_activate env self).effects
      = [argv_of (virt_viewer_app_open_tunnel_ssh_cmd self.priv.host self.priv.port
        self.priv.user self.priv.ghost self.priv.gport self.priv.unixsock).cmd] := by
  obtain ⟨tr, htr, heq⟩ := activate_ssh_eq env self h hs
  have hneg : ¬ (virt_viewer_app_open_tunnel_ssh env self.priv.host self.priv.port
      self.priv.user self.priv.ghost self.priv.gport self.priv.unixsock).1 < 0 :=
    tunnel_child_execs_handle env _ hx
  rw [heq, if_neg hneg, spawned_argvs_activate_open, spawned_argvs_append,
    spawned_argvs_traces tr htr]
  have := spawned_argvs_open_tunnel env
    (virt_viewer_app_open_tunnel_ssh_cmd self.priv.host self.priv.port self.priv.user
      self.priv.ghost self.priv.gport self.priv.unixsock).cmd
  rw [hx, if_pos rfl] at this
  simpa using this

theorem channel_open_spawns_tunnel (env : Env) (channel : Nat) (self : VirtViewerApp)
    (hs : use_ssh_tunnel self.priv = true) (hx : tunnel_child_execs env = true) :
    spawned_argvs (virt_viewer_app_channel_open env channel self).effects
      = [argv_of (virt_viewer_app_open_tunnel_ssh_cmd self.priv.host self.priv.port
        self.priv.user self.priv.ghost self.priv.gport none).cmd] := by
  have hneg : ¬ (virt_viewer_app_open_tunnel_ssh env self.priv.host self.priv.port
      self.priv.user self.priv.ghost self.priv.gport none).1 < 0 :=
    tunnel_child_execs_handle env _ hx
  have ht : spawned_argvs (virt_viewer_app_open_tunnel_ssh env self.priv.host self.priv.port
      self.priv.user self.priv.ghost self.priv.gport none).2 = _ :=
    spawned_argvs_open_tunnel env
      (virt_viewer_app_open_tunnel_ssh_cmd self.priv.host self.priv.port self.priv.user
        self.priv.ghost self.priv.gport none).cmd
  rw [hx, if_pos rfl] at ht
  simp only [virt_viewer_app_channel_open, hs, hneg, if_true, if_false, spawned_argvs_append,
    ht]
  simp [spawned_argvs]

theorem channel_open_spawned (env : Env) (channel : Nat) (self : VirtViewerApp) :
    ∀ argv ∈ spawned_argvs (virt_viewer_app_channel_open env channel self).effects,
      argv = argv_of (virt_viewer_app_open_tunnel_ssh_cmd self.priv.host self.priv.port
        self.priv.user self.priv.ghost self.priv.gport none).cmd := by
  intro argv hmem
  have ht : spawned_argvs (virt_viewer_app_open_tunnel_ssh env self.priv.host self.priv.port
      self.priv.user self.priv.ghost self.priv.gport none).2 = _ :=
    spawned_argvs_open_tunnel env
      (virt_viewer_app_open_tunnel_ssh_cmd self.priv.host self.priv.port self.priv.user
        self.priv.ghost self.priv.gport none).cmd
  by_cases hs : use_ssh_tunnel self.priv = true
  · by_cases hn : (virt_viewer_app_open_tunnel_ssh env self.priv.host self.priv.port
        self.priv.user self.priv.ghost self.priv.gport none).1 < 0
    · simp only [virt_viewer_app_channel_open, hs, hn, if_true, spawned_argvs_append, ht]
        at hmem
      split at hmem <;> simp [spawned_argvs] at hmem
      exact hmem
    · simp only [virt_viewer_app_channel_open, hs, hn, if_true, if_false,
        spawned_argvs_append, ht] at hmem
      split at hmem <;> simp [spawned_argvs] at hmem
      exact hmem
  · simp [virt_viewer_app_channel_open, hs, spawned_argvs] at hmem

theorem argv_port_unset (h u th tp s : CStr) :
    (argv_of (virt_viewer_app_open_tunnel_ssh_cmd h 0 u th tp s).cmd).take 3
      = ["ssh", "-p", "22"] := by
  cases u <;> cases tp <;> rfl

theorem set_connect_info_priv (self : VirtViewerApp)
    (host ghost gport transport unixsock user : CStr) (port : Int) :
    (virt_viewer_app_set_connect_info self host ghost gport transport unixsock user port).self
      = { self with priv :=
          { self.priv with
            host := host, ghost := ghost, gport := gport, transport := transport,
            unixsock := unixsock, user := user, port := 0,
            pretty_address := some (if gport.isSome then printf_s ghost ++ ":" ++ printf_s gport
              else printf_s host ++ ":" ++ printf_s unixsock) } } := by
  cases hg : gport <;>
    simp [virt_viewer_app_set_connect_info, virt_viewer_app_update_pretty_address]

theorem cmd_target_port (h : CStr) (p : Int) (u th s : CStr) (tp : String) :
    [Slot.ptr th, Slot.ptr (some tp), Slot.ptr none]
      <:+ (virt_viewer_app_open_tunnel_ssh_cmd h p u th (some tp) s).written := by
  cases u with
  | none =>
    exact ⟨[Slot.ptr (some "ssh"), Slot.ptr (some "-p"),
      Slot.ptr (some (sprintf_d (if p = 0 then 22 else p))), Slot.ptr h,
      Slot.ptr (some "nc")], rfl⟩
  | some user =>
    exact ⟨[Slot.ptr (some "ssh"), Slot.ptr (some "-p"),
      Slot.ptr (some (sprintf_d (if p = 0 then 22 else p))), Slot.ptr (some "-l"),
      Slot.ptr (some user), Slot.ptr h, Slot.ptr (some "nc")], rfl⟩

theorem cmd_target_socket (h : CStr) (p : Int) (u th s : CStr) :
    [Slot.ptr (some "-U"), Slot.ptr s, Slot.ptr none]
      <:+ (virt_viewer_app_open_tunnel_ssh_cmd h p u th none s).written := by
  cases u with
  | none =>
    exact ⟨[Slot.ptr (some "ssh"), Slot.ptr (some "-p"),
      Slot.ptr (some (sprintf_d (if p = 0 then 22 else p))), Slot.ptr h,
      Slot.ptr (some "nc")], rfl⟩
  | some user =>
    exact ⟨[Slot.ptr (some "ssh"), Slot.ptr (some "-p"),
      Slot.ptr (some (sprintf_d (if p = 0 then 22 else p))), Slot.ptr (some "-l"),
      Slot.ptr (some user), Slot.ptr h, Slot.ptr (some "nc")], rfl⟩

theorem activate_unix_obs (env : Env) (self : VirtViewerApp) (h : self.priv.active = false)
    (hs : use_ssh_tunnel self.priv = false) (path : String)
    (hp : self.priv.unixsock = some path) :
    (∀ e ∈ (virt_viewer_app_open_unix_sock env path).2,
      e ∈ (virt_viewer_app_activate env self).effects) ∧
    opens_by_host (virt_viewer_app_activate env self).effects = false := by
  obtain ⟨-, b2, -, -⟩ := open_unix_sock_effects env path
  have hpre2 : opens_by_host
      ([Effect.trace "Opening direct UNIX connection to display at %s"]
        ++ (virt_viewer_app_open_unix_sock env path).2) = false := by
    unfold opens_by_host at b2 ⊢
    simp [b2]
  rw [activate_unix_eq env self h hs path hp]
  split
  · exact ⟨fun e he => List.mem_append_right _ he, hpre2⟩
  · rename_i hneg
    refine ⟨fun e he => (activate_open_spec env self _ _).2.2.1 e
      (List.mem_append_right _ he), ?_⟩
    rw [(activate_open_obs env self _ _).2.1, hpre2]
    simp
    omega

theorem activate_tcp_obs (env : Env) (self : VirtViewerApp) (h : self.priv.active = false)
    (hs : use_ssh_tunnel self.priv = false) (hp : self.priv.unixsock = none) :
    Effect.session_open_host self.priv.ghost self.priv.gport
      ∈ (virt_viewer_app_activate env self).effects ∧
    does_transport_work (virt_viewer_app_activate env self).effects = false := by
  rw [activate_tcp_eq env self h hs hp]
  refine ⟨(activate_open_spec env self (-1) []).2.2.2.2.2 (by omega), ?_⟩
  rw [(activate_open_obs env self (-1) []).2.2]
  rfl

theorem utf8Len_le (l : List Char) : String.utf8Len l ≤ 4 * l.length := by
  induction l with
  | nil => simp
  | cons c l ih =>
    have := c.utf8Size_le_four
    simp only [String.utf8Len_cons, List.length_cons]
    omega

theorem sprintf_d_length (n : Int) (h : is_int32 n) : (sprintf_d n).length ≤ 11 := by
  obtain ⟨h1, h2⟩ := h
  cases n with
  | ofNat m =>
    have hm : m < 10 ^ 10 := by
      have : (m : Int) ≤ 2147483647 := h2
      omega
    have := Nat.repr_length m 10 (by decide) hm
    show (Nat.repr m).length ≤ 11
    omega
  | negSucc m =>
    have hm : m + 1 < 10 ^ 10 := by
      have : Int.negSucc m = -((m : Int) + 1) := rfl
      omega
    have := Nat.repr_length (m + 1) 10 (by decide) hm
    show ("-" ++ Nat.repr (m + 1)).length ≤ 11
    rw [String.length_append]
    have : ("-" : String).length = 1 := rfl
    omega

theorem sprintf_d_size_le (n : Int) (h : is_int32 n) : sprintf_d_size n ≤ 50 := by
  have hlen := sprintf_d_length n h
  unfold sprintf_d_size
  have hb := utf8Len_le (sprintf_d n).data
  have hu : (sprintf_d n).utf8ByteSize = String.utf8Len (sprintf_d n).data := rfl
  have hl : (sprintf_d n).length = (sprintf_d n).data.length := rfl
  omega

theorem open_tunnel_no_overflow (env : Env) (cmd : List Slot) :
    ∀ b n, Effect.buffer_overflow b n ∉ (virt_viewer_app_open_tunnel env cmd).2 := by
  intro b n
  unfold virt_viewer_app_open_tunnel virt_viewer_app_open_tunnel_child
  cases env.socketpair with
  | none => simp
  | some fds =>
    cases env.fork with
    | none => simp
    | some pid => by_cases hd : child_dup_ok fds.1 fds.2 = true <;> simp [hd]

theorem open_unix_sock_fits (env : Env) (path : String) (hf : fits_sun_path path = true) :
    Effect.sys_socket ∈ (virt_viewer_app_open_unix_sock env path).2 ∧
    (∀ fd, env.socket = some fd →
      Effect.sys_connect fd path ∈ (virt_viewer_app_open_unix_sock env path).2) ∧
    ((virt_viewer_app_open_unix_sock env path).1 < 0 ↔
      (env.socket = none ∨ env.connect = false)) ∧
    (∀ b n, Effect.buffer_overflow b n ∉ (virt_viewer_app_open_unix_sock env path).2) := by
  unfold virt_viewer_app_open_unix_sock
  cases hs : env.socket with
  | none => simp [hf]
  | some fd => cases hc : env.connect <;> simp [hf]

theorem activate_open_no_overflow (env : Env) (self : VirtViewerApp) (fd : Int)
    (pre : List Effect) (hpre : ∀ b n, Effect.buffer_overflow b n ∉ pre) :
    ∀ b n, Effect.buffer_overflow b n
      ∉ (virt_viewer_app_activate_open env self fd pre).effects := by
  intro b n he
  rcases (activate_open_spec env self fd pre).2.2.2.1 _ he with hx | hx | hx | hx | hx | hx
  · exact hpre b n hx
  · exact absurd hx.2 (by simp)
  · exact absurd hx.2 (by simp)
  · exact absurd hx.2 (by simp)
  · exact absurd hx (by simp)
  · obtain ⟨w, hw⟩ := hx
    exact absurd hw (by simp)

theorem activate_no_overflow (env : Env) (self : VirtViewerApp)
    (hdef : activate_defined self.priv = true) :
    ∀ b n, Effect.buffer_overflow b n ∉ (virt_viewer_app_activate env self).effects := by
  cases h : self.priv.active with
  | true => simp [virt_viewer_app_activate, h]
  | false =>
    by_cases hs : use_ssh_tunnel self.priv = true
    · obtain ⟨tr, htr, heq⟩ := activate_ssh_eq env self h hs
      have hpre : ∀ b n, Effect.buffer_overflow b n ∉ tr ++ (virt_viewer_app_open_tunnel_ssh
          env self.priv.host self.priv.port self.priv.user self.priv.ghost self.priv.gport
          self.priv.unixsock).2 := by
        intro b n he
        rcases List.mem_append.mp he with he | he
        · obtain ⟨f, hf⟩ := htr _ he
          exact absurd hf (by simp)
        · exact open_tunnel_no_overflow env _ b n he
      rw [heq]
      split
      · exact hpre
      · exact activate_open_no_overflow env self _ _ hpre
    · have hs : use_ssh_tunnel self.priv = false := by simpa using hs
      cases hp : self.priv.unixsock with
      | some path =>
        have hf : fits_sun_path path = true := by
          simpa [activate_defined, hs, hp] using hdef
        have hpre : ∀ b n, Effect.buffer_overflow b n
            ∉ [Effect.trace "Opening direct UNIX connection to display at %s"]
              ++ (virt_viewer_app_open_unix_sock env path).2 := by
          intro b n he
          rcases List.mem_append.mp he with he | he
          · simp at he
          · exact (open_unix_sock_fits env path hf).2.2.2 b n he
        rw [activate_unix_eq env self h hs path hp]
        split
        · exact hpre
        · exact activate_open_no_overflow env self _ _ hpre
      | none =>
        rw [activate_tcp_eq env self h hs hp]
        exact activate_open_no_overflow env self _ _ (by simp)

theorem activate_transport_order_aux (env : Env) (self : VirtViewerApp)
    (h : self.priv.active = false) :
    let r := virt_viewer_app_activate env self
    let t := virt_viewer_app_open_tunnel_ssh env self.priv.host self.priv.port
      self.priv.user self.priv.ghost self.priv.gport self.priv.unixsock
    (use_ssh_tunnel self.priv = true ↔
      ∃ s, self.priv.transport = some s ∧ g_strcasecmp s "ssh" = 0 ∧ self.priv.direct = false) ∧
    (∀ s : String, g_strcasecmp s "ssh" = 0 ↔
      (c_chars s.toList).map fold_case = (c_chars "ssh".toList).map fold_case) ∧
    (use_ssh_tunnel self.priv = true →
      (∀ e ∈ t.2, e ∈ r.effects) ∧
      Effect.sys_socket ∉ r.effects ∧
      opens_by_host r.effects = false ∧
      (0 ≤ t.1 → Effect.session_open_fd t.1 ∈ r.effects ∧ r.ret = env.session_open_fd t.1)) ∧
    (use_ssh_tunnel self.priv = false → ∀ path, self.priv.unixsock = some path →
      (∀ e ∈ (virt_viewer_app_open_unix_sock env path).2, e ∈ r.effects) ∧
      Effect.sys_socketpair ∉ r.effects ∧ Effect.sys_fork ∉ r.effects ∧
      opens_by_host r.effects = false ∧
      (0 ≤ (virt_viewer_app_open_unix_sock env path).1 →
        Effect.session_open_fd (virt_viewer_app_open_unix_sock env path).1 ∈ r.effects ∧
        r.ret = env.session_open_fd (virt_viewer_app_open_unix_sock env path).1)) ∧
    (use_ssh_tunnel self.priv = false → self.priv.unixsock = none →
      Effect.session_open_host self.priv.ghost self.priv.gport ∈ r.effects ∧
      r.ret = env.session_open_host self.priv.ghost self.priv.gport ∧
      does_transport_work r.effects = false ∧
      opens_by_handle r.effects = false) ∧
    (opens_by_handle r.effects = true ↔
      (use_ssh_tunnel self.priv = true ∧ 0 ≤ t.1) ∨
      (use_ssh_tunnel self.priv = false ∧
        ∃ path, self.priv.unixsock = some path ∧
          0 ≤ (virt_viewer_app_open_unix_sock env path).1)) ∧
    (opens_by_host r.effects = true ↔
      use_ssh_tunnel self.priv = false ∧ self.priv.unixsock = none) := by
  intro r t
  refine ⟨?_, fun s => g_strcasecmp_chars_eq_zero_iff _ _, ?_⟩
  · unfold use_ssh_tunnel
    cases self.priv.transport <;> simp
  by_cases hs : use_ssh_tunnel self.priv = true
  · -- the ssh tunnel is selected
    obtain ⟨tr, htr, heq⟩ := activate_ssh_eq env self h hs
    obtain ⟨a1, a2, a3, a4, -, -⟩ := traces_obs tr htr
    obtain ⟨b1, b2, b3⟩ := open_tunnel_effects env
      (virt_viewer_app_open_tunnel_ssh_cmd self.priv.host self.priv.port self.priv.user
        self.priv.ghost self.priv.gport self.priv.unixsock).cmd
    have hr : r = virt_viewer_app_activate env self := rfl
    have ht : t = virt_viewer_app_open_tunnel_ssh env self.priv.host self.priv.port
      self.priv.user self.priv.ghost self.priv.gport self.priv.unixsock := rfl
    rw [← ht] at heq
    have b1t : opens_by_handle t.2 = false := b1
    have b2t : opens_by_host t.2 = false := b2
    have b3t : Effect.sys_socket ∉ t.2 := b3
    have hpre1 : opens_by_handle (tr ++ t.2) = false := by
      unfold opens_by_handle at a1 b1t ⊢
      simp [List.any_append, a1, b1t]
    have hpre2 : opens_by_host (tr ++ t.2) = false := by
      unfold opens_by_host at a2 b2t ⊢
      simp [List.any_append, a2, b2t]
    by_cases hneg : t.1 < 0
    · have hr2 : r = { ret := -1, self := self, effects := tr ++ t.2 } := by
        rw [hr, heq, if_pos hneg]
      have hnn : ¬ 0 ≤ t.1 := by omega
      simp [hr2, hs, hpre1, hpre2, hnn, a4, b3t]
      exact fun e he => Or.inr he
    · have hr2 : r = virt_viewer_app_activate_open env self t.1 (tr ++ t.2) := by
        rw [hr, heq, if_neg hneg]
      have hnn : 0 ≤ t.1 := by omega
      obtain ⟨c1, -, c3, c4, c5, -⟩ := activate_open_spec env self t.1 (tr ++ t.2)
      obtain ⟨d1, d2, -⟩ := activate_open_obs env self t.1 (tr ++ t.2)
      rw [← hr2] at c1 c3 c4 c5 d1 d2
      have hsock : Effect.sys_socket ∉ r.effects := by
        intro hmem
        rcases c4 _ hmem with hx | hx | hx | hx | hx | hx
        · rcases List.mem_append.mp hx with hx | hx
          · exact a4 hx
          · exact b3t hx
        · exact absurd hx.2 (by simp)
        · exact absurd hx.2 (by simp)
        · exact absurd hx.2 (by simp)
        · exact absurd hx (by simp)
        · obtain ⟨w, hw⟩ := hx
          exact absurd hw (by simp)
      refine ⟨?_, ?_, ?_, ?_, ?_⟩
      · intro _
        refine ⟨fun e he => c3 e (List.mem_append_right _ he), hsock, ?_, ?_⟩
        · rw [d2, hpre2]; simp [hneg]
        · intro _
          exact ⟨c5 hnn, by rw [c1, if_pos hnn]⟩
      · intro hf; rw [hs] at hf; exact absurd hf (by simp)
      · intro hf; rw [hs] at hf; exact absurd hf (by simp)
      · rw [d1, hpre1]; simp [hs, hnn]
      · rw [d2, hpre2]; simp [hs, hneg]
  · -- the ssh tunnel is not selected
    have hs : use_ssh_tunnel self.priv = false := by simpa using hs
    cases hp : self.priv.unixsock with
    | some path =>
      have heq := activate_unix_eq env self h hs path hp
      obtain ⟨b1, b2, b3, b4⟩ := open_unix_sock_effects env path
      have hr : r = virt_viewer_app_activate env self := rfl
      set u := virt_viewer_app_open_unix_sock env path with hu
      have hpre1 : opens_by_handle
          ([Effect.trace "Opening direct UNIX connection to display at %s"] ++ u.2) = false := by
        unfold opens_by_handle at b1 ⊢
        simp [b1]
      have hpre2 : opens_by_host
          ([Effect.trace "Opening direct UNIX connection to display at %s"] ++ u.2) = false := by
        unfold opens_by_host at b2 ⊢
        simp [b2]
      by_cases hneg : u.1 < 0
      · have hr2 := hr
        rw [heq, if_pos hneg] at hr2
        have hnn : ¬ 0 ≤ u.1 := by omega
        have hpre1b : opens_by_handle (Effect.trace
            "Opening direct UNIX connection to display at %s" :: u.2) = false := hpre1
        have hpre2b : opens_by_host (Effect.trace
            "Opening direct UNIX connection to display at %s" :: u.2) = false := hpre2
        simp [hr2, hs, hpre1b, hpre2b, hnn, b3, b4, ← hu]
        exact fun e he => Or.inr he
      · have hr2 : r = virt_viewer_app_activate_open env self u.1
            ([Effect.trace "Opening direct UNIX connection to display at %s"] ++ u.2) := by
          rw [hr, heq, if_neg hneg]
        have hnn : 0 ≤ u.1 := by omega
        obtain ⟨c1, -, c3, c4, c5, -⟩ := activate_open_spec env self u.1
          ([Effect.trace "Opening direct UNIX connection to display at %s"] ++ u.2)
        obtain ⟨d1, d2, -⟩ := activate_open_obs env self u.1
          ([Effect.trace "Opening direct UNIX connection to display at %s"] ++ u.2)
        rw [← hr2] at c1 c3 c4 c5 d1 d2
        have hno : ∀ x, x = Effect.sys_socketpair ∨ x = Effect.sys_fork →
            x ∈ u.2 → False := by
          intro x hx hmem
          rcases hx with hx | hx
          · exact b3 (hx ▸ hmem)
          · exact b4 (hx ▸ hmem)
        have habs : ∀ x, x = Effect.sys_socketpair ∨ x = Effect.sys_fork →
            x ∉ r.effects := by
          intro x hx hmem
          rcases c4 _ hmem with hy | hy | hy | hy | hy | hy
          · rcases List.mem_append.mp hy with hy | hy
            · rcases hx with hx | hx <;> subst hx <;> simp at hy
            · exact hno x hx hy
          · rcases hx with hx | hx <;> subst hx <;> exact absurd hy.2 (by simp)
          · rcases hx with hx | hx <;> subst hx <;> exact absurd hy.2 (by simp)
          · rcases hx with hx | hx <;> subst hx <;> exact absurd hy.2 (by simp)
          · rcases hx with hx | hx <;> subst hx <;> exact absurd hy (by simp)
          · obtain ⟨w, hw⟩ := hy
            rcases hx with hx | hx <;> subst hx <;> exact absurd hw (by simp)
        refine ⟨?_, ?_, ?_, ?_, ?_⟩
        · intro hf; rw [hs] at hf; exact absurd hf (by simp)
        · intro _ path2 hp2
          have : path2 = path := by simpa using hp2.symm
          subst this
          refine ⟨fun e he => c3 e (List.mem_append_right _ he),
            habs _ (Or.inl rfl), habs _ (Or.inr rfl), ?_, ?_⟩
          · rw [d2, hpre2]; simp [hneg]
          · intro _
            exact ⟨c5 hnn, by rw [c1, if_pos hnn]⟩
        · intro _ hf; exact absurd hf (by simp)
        · rw [d1, hpre1]; simp [hs, hnn, ← hu]
        · rw [d2, hpre2]; simp [hs, hneg]
    | none =>
      have heq := activate_tcp_eq env self h hs hp
      have hr : r = virt_viewer_app_activate_open env self (-1) [] := heq
      obtain ⟨c1, -, -, -, -, c6⟩ := activate_open_spec env self (-1) []
      obtain ⟨d1, d2, d3⟩ := activate_open_obs env self (-1) []
      rw [← hr] at c1 c6 d1 d2 d3
      refine ⟨?_, ?_, ?_, ?_, ?_⟩
      · intro hf; rw [hs] at hf; exact absurd hf (by simp)
      · intro _ path hf; exact absurd hf (by simp)
      · intro _ _
        refine ⟨c6 (by omega), by rw [c1]; simp, ?_, ?_⟩
        · rw [d3]; rfl
        · rw [d1]; rfl
      · rw [d1]; simp [hs, opens_by_handle]
      · rw [d2]; simp [hs, opens_by_host]

theorem activate_no_spawn (env : Env) (self : VirtViewerApp)
    (hx : tunnel_child_execs env = false) :
    ∀ argv, argv ∉ spawned_argvs (virt_viewer_app_activate env self).effects := by
  intro argv hmem
  have hopen : ∀ cmd, spawned_argvs (virt_viewer_app_open_tunnel env cmd).2 = [] := by
    intro cmd
    rw [spawned_argvs_open_tunnel, hx]
    simp
  cases h : self.priv.active with
  | true => simp [virt_viewer_app_activate, h, spawned_argvs] at hmem
  | false =>
    by_cases hs : use_ssh_tunnel self.priv = true
    · obtain ⟨tr, htr, heq⟩ := activate_ssh_eq env self h hs
      have hpre : spawned_argvs (tr ++ (virt_viewer_app_open_tunnel_ssh env self.priv.host
          self.priv.port self.priv.user self.priv.ghost self.priv.gport
          self.priv.unixsock).2) = [] := by
        rw [spawned_argvs_append, spawned_argvs_traces tr htr]
        exact hopen _
      rw [heq] at hmem
      split at hmem
      · rw [hpre] at hmem; simp at hmem
      · rw [spawned_argvs_activate_open, hpre] at hmem; simp at hmem
    · have hs : use_ssh_tunnel self.priv = false := by simpa using hs
      cases hp : self.priv.unixsock with
      | some path =>
        rw [activate_unix_eq env self h hs path hp] at hmem
        split at hmem
        · simp [spawned_argvs_append, spawned_argvs, spawned_argvs_open_unix_sock] at hmem
        · rw [spawned_argvs_activate_open] at hmem
          simp [spawned_argvs_append, spawned_argvs, spawned_argvs_open_unix_sock] at hmem
      | none =>
        rw [activate_tcp_eq env self h hs hp, spawned_argvs_activate_open] at hmem
        simp [spawned_argvs] at hmem

/-! ## Theorems -/

/-- C1 (counterexample): on the active controller `app_active`, with every
collaborator ready to succeed, `virt_viewer_app_activate` returns -1, a negative
status, not the success status 0. -/
theorem activate_while_active_returns_failure :
    app_active.priv.active = true ∧
    (virt_viewer_app_activate env_ok app_active).ret = -1 ∧
    ¬ (0 ≤ (virt_viewer_app_activate env_ok app_active).ret) := by
  decide

/-- C1 (amended): for every controller state in which active is true,
`virt_viewer_app_activate` returns -1 (the initial value of `ret`), makes no call
at all (so no tunnel is spawned, no local socket is opened and the session is
not asked to open) and leaves the whole controller, in particular active,
connected, grabbed and the connection parameters, unchanged. -/
theorem activate_while_active_is_noop (env : Env) (self : VirtViewerApp)
    (h : self.priv.active = true) :
    (virt_viewer_app_activate env self).ret = -1 ∧
    (virt_viewer_app_activate env self).effects = [] ∧
    does_transport_work (virt_viewer_app_activate env self).effects = false ∧
    opens_by_handle (virt_viewer_app_activate env self).effects = false ∧
    opens_by_host (virt_viewer_app_activate env self).effects = false ∧
    (virt_viewer_app_activate env self).self = self := by
  simp [virt_viewer_app_activate, h, does_transport_work, opens_by_handle, opens_by_host]

/-- C1 (witness): the amended statement at `app_active`. -/
theorem activate_while_active_is_noop_witness :
    app_active.priv.active = true ∧
    (virt_viewer_app_activate env_ok app_active).ret = -1 ∧
    (virt_viewer_app_activate env_ok app_active).effects = [] ∧
    (virt_viewer_app_activate env_ok app_active).self = app_active :=
  have h := activate_while_active_is_noop env_ok app_active (by decide)
  ⟨by decide, h.1, h.2.1, h.2.2.2.2.2⟩

/-- C2: for all inputs (NULL pointers included) the slots written by
`virt_viewer_app_open_tunnel_ssh` are exactly the vector of the specification
followed by the terminating NULL: "ssh", "-p", the decimal port ("22" for port
0), "-l" and the user only with a user, the relay host, "nc", then the target
host and port when a port is set and otherwise "-U" and the socket path. With
relay host h, port unset, user u, target th and port tp the child runs
`ssh -p 22 -l u h nc th tp`; with socket /tmp/s and no port it runs
`ssh -p 22 -l u h nc -U /tmp/s`; with port 2222 and no user it runs
`ssh -p 2222 h nc th tp`. -/
theorem open_tunnel_ssh_cmd_exact :
    (∀ (h : CStr) (p : Int) (u th tp s : CStr),
      (virt_viewer_app_open_tunnel_ssh_cmd h p u th tp s).written
        = (tunnel_argv_spec h p u th tp s).map Slot.ptr) ∧
    (∀ (h u th tp : String) (s : CStr),
      argv_of (virt_viewer_app_open_tunnel_ssh_cmd (some h) 0 (some u) (some th) (some tp) s).cmd
        = ["ssh", "-p", "22", "-l", u, h, "nc", th, tp]) ∧
    (∀ (h u : String) (th : CStr),
      argv_of (virt_viewer_app_open_tunnel_ssh_cmd (some h) 0 (some u) th none (some "/tmp/s")).cmd
        = ["ssh", "-p", "22", "-l", u, h, "nc", "-U", "/tmp/s"]) ∧
    (∀ (h th tp : String) (s : CStr),
      argv_of (virt_viewer_app_open_tunnel_ssh_cmd (some h) 2222 none (some th) (some tp) s).cmd
        = ["ssh", "-p", "2222", h, "nc", th, tp]) := by
  refine ⟨?_, ?_, ?_, ?_⟩
  · intro h p u th tp s
    by_cases hp : p = 0
    · subst hp
      cases u <;> cases tp <;> rfl
    · cases u <;> cases tp <;>
        simp [virt_viewer_app_open_tunnel_ssh_cmd, tunnel_argv_spec, hp, CmdBuf.written,
          CmdBuf.put, CmdBuf.init, List.replicate]
  · intro h u th tp s
    rfl
  · intro h u th
    rfl
  · intro h th tp s
    rfl

/-- C3 (counterexample): with the ssh transport configured and `socketpair`
failing, neither of the first two branches produces a handle, yet the session's
open(host, service) is not used: the attempt ends with -1 after the failed
`socketpair` and no open operation of the session is called. -/
theorem activate_tunnel_failure_opens_nothing :
    app_ssh.priv.active = false ∧
    use_ssh_tunnel app_ssh.priv = true ∧
    (virt_viewer_app_open_tunnel_ssh env_no_socketpair app_ssh.priv.host app_ssh.priv.port
      app_ssh.priv.user app_ssh.priv.ghost app_ssh.priv.gport app_ssh.priv.unixsock).1 = -1 ∧
    (virt_viewer_app_activate env_no_socketpair app_ssh).effects
      = [Effect.trace "Opening indirect TCP connection to display at %s:%s\n",
         Effect.trace "Setting up SSH tunnel via %s@%s:%d\n",
         Effect.sys_socketpair] ∧
    opens_by_handle (virt_viewer_app_activate env_no_socketpair app_ssh).effects = false ∧
    opens_by_host (virt_viewer_app_activate env_no_socketpair app_ssh).effects = false := by
  decide

/-- C3 (amended): for every inactive controller whose socket path, when it is
the one used, fits the 108-byte `sun_path` (a longer path overflows that array
at line 294 and is left out), `virt_viewer_app_activate` chooses the transport
in this order. If the transport string compares equal to "ssh" under
`g_strcasecmp` (that is, equal after case folding) and the direct override is
off, it runs the ssh tunnel built from relay host, port and user and target
host, port and socket (the command the child executes when it reaches
`execvp`), never the local-socket connect nor open(host, service), and when
the tunnel yields a handle it opens the session on that handle. Else if a
local-socket path is set, it calls `socket` and connects to that path, runs no
tunnel and no open(host, service), and when the connect yields a handle it
opens the session on it. Else it hands target host and port to the session's
open(host, service) and does no transport work. Open-by-handle is used exactly
when one of the first two branches produced a handle; open-by-host exactly
when neither of the first two branches is selected (a selected branch that
fails opens nothing). No buffer is overrun. -/
theorem activate_transport_order (env : Env) (self : VirtViewerApp)
    (h : self.priv.active = false) (hdef : activate_defined self.priv = true) :
    let r := virt_viewer_app_activate env self
    let t := virt_viewer_app_open_tunnel_ssh env self.priv.host self.priv.port
      self.priv.user self.priv.ghost self.priv.gport self.priv.unixsock
    (use_ssh_tunnel self.priv = true ↔
      ∃ s, self.priv.transport = some s ∧ g_strcasecmp s "ssh" = 0 ∧ self.priv.direct = false) ∧
    (∀ s : String, g_strcasecmp s "ssh" = 0 ↔
      (c_chars s.toList).map fold_case = (c_chars "ssh".toList).map fold_case) ∧
    (use_ssh_tunnel self.priv = true →
      (∀ e ∈ t.2, e ∈ r.effects) ∧
      Effect.sys_socket ∉ r.effects ∧
      opens_by_host r.effects = false ∧
      (0 ≤ t.1 → Effect.session_open_fd t.1 ∈ r.effects ∧ r.ret = env.session_open_fd t.1) ∧
      (tunnel_child_execs env = true →
        spawned_argvs r.effects
          = [argv_of (virt_viewer_app_open_tunnel_ssh_cmd self.priv.host self.priv.port
              self.priv.user self.priv.ghost self.priv.gport self.priv.unixsock).cmd]) ∧
      (tunnel_child_execs env = false → spawned_argvs r.effects = [])) ∧
    (use_ssh_tunnel self.priv = false → ∀ path, self.priv.unixsock = some path →
      fits_sun_path path = true ∧
      Effect.sys_socket ∈ r.effects ∧
      (∀ fd, env.socket = some fd → Effect.sys_connect fd path ∈ r.effects) ∧
      (∀ e ∈ (virt_viewer_app_open_unix_sock env path).2, e ∈ r.effects) ∧
      Effect.sys_socketpair ∉ r.effects ∧ Effect.sys_fork ∉ r.effects ∧
      opens_by_host r.effects = false ∧
      (0 ≤ (virt_viewer_app_open_unix_sock env path).1 →
        Effect.session_open_fd (virt_viewer_app_open_unix_sock env path).1 ∈ r.effects ∧
        r.ret = env.session_open_fd (virt_viewer_app_open_unix_sock env path).1)) ∧
    (use_ssh_tunnel self.priv = false → self.priv.unixsock = none →
      Effect.session_open_host self.priv.ghost self.priv.gport ∈ r.effects ∧
      r.ret = env.session_open_host self.priv.ghost self.priv.gport ∧
      does_transport_work r.effects = false ∧
      opens_by_handle r.effects = false) ∧
    (opens_by_handle r.effects = true ↔
      (use_ssh_tunnel self.priv = true ∧ 0 ≤ t.1) ∨
      (use_ssh_tunnel self.priv = false ∧
        ∃ path, self.priv.unixsock = some path ∧
          0 ≤ (virt_viewer_app_open_unix_sock env path).1)) ∧
    (opens_by_host r.effects = true ↔
      use_ssh_tunnel self.priv = false ∧ self.priv.unixsock = none) ∧
    (∀ b n, Effect.buffer_overflow b n ∉ r.effects) := by
  intro r t
  obtain ⟨a1, a2, a3, a4, a5, a6, a7⟩ := activate_transport_order_aux env self h
  refine ⟨a1, a2, ?_, ?_, a5, a6, a7, activate_no_overflow env self hdef⟩
  · intro hs
    obtain ⟨c1, c2, c3, c4⟩ := a3 hs
    refine ⟨c1, c2, c3, c4, fun hx => activate_spawns_tunnel env self h hs hx, ?_⟩
    intro hx
    cases hsp : spawned_argvs r.effects with
    | nil => rfl
    | cons argv rest =>
      exfalso
      have hmem : argv ∈ spawned_argvs (virt_viewer_app_activate env self).effects := by
        show argv ∈ spawned_argvs r.effects
        rw [hsp]
        exact List.mem_cons_self _ _
      exact activate_no_spawn env self hx argv hmem
  · intro hs path hp
    have hf : fits_sun_path path = true := by
      simpa [activate_defined, hs, hp] using hdef
    obtain ⟨d1, d2, d3, d4, d5⟩ := a4 hs path hp
    obtain ⟨f1, f2, -, -⟩ := open_unix_sock_fits env path hf
    exact ⟨hf, d1 _ f1, fun fd hfd => d1 _ (f2 fd hfd), d1, d2, d3, d4, d5⟩

/-- C3 (witness): the ssh branch at `app_ssh`, whose transport is spelled "SSH",
with every collaborator succeeding: the session is opened on descriptor 5, the
caller's end of the socket pair, and open(host, service) is not used. -/
theorem activate_transport_order_witness :
    app_ssh.priv.active = false ∧
    use_ssh_tunnel app_ssh.priv = true ∧
    Effect.session_open_fd 5 ∈ (virt_viewer_app_activate env_ok app_ssh).effects ∧
    opens_by_host (virt_viewer_app_activate env_ok app_ssh).effects = false :=
  have h := activate_transport_order env_ok app_ssh (by decide) (by decide)
  ⟨by decide, by decide, ((h.2.2.1 (by decide)).2.2.2.1 (by decide)).1,
    (h.2.2.1 (by decide)).2.2.1⟩

/-- C5 (the code at the failing input): the inactive controller `app_tcp` has no
relay and no socket path, and the session's open(host, service) reports -1.
`virt_viewer_app_activate` returns -1 and yet leaves the controller active. The
same holds whenever the transport is established: for every inactive
controller, unless the call ended at a failed tunnel or socket, active is true
afterwards whatever status the session's open returned. -/
theorem activate_failed_open_leaves_active :
    app_tcp.priv.active = false ∧
    (virt_viewer_app_activate env_open_fails app_tcp).ret = -1 ∧
    (virt_viewer_app_activate env_open_fails app_tcp).self.priv.active = true ∧
    (∀ (env : Env) (self : VirtViewerApp), self.priv.active = false →
      (opens_by_host (virt_viewer_app_activate env self).effects = true ∨
        opens_by_handle (virt_viewer_app_activate env self).effects = true) →
      (virt_viewer_app_activate env self).self.priv.active = true) := by
  refine ⟨by decide, by decide, by decide, ?_⟩
  intro env self h hopen
  rcases activate_inactive_cases env self h with ⟨-, -, h1, h2⟩ | ⟨fd, pre, heq⟩
  · rcases hopen with hopen | hopen
    · rw [h1] at hopen; exact absurd hopen (by simp)
    · rw [h2] at hopen; exact absurd hopen (by simp)
  · rw [heq, (activate_open_spec env self fd pre).2.1]

/-- C6: for every controller state with active=true, whatever connected is,
the disconnected handler closes the session exactly when one exists and leaves
active=false, connected=false and grabbed=false, with the connection
parameters, the direct override, the session object and the pretty address as
they were. After an activation from inactive that returns success the state is
active=true, connected=false, grabbed=false, so the handler applies to it;
such activations exist: a direct TCP activation returns whatever the session's
open(host, service) returns, and on `app_tcp` with every collaborator
succeeding it returns 0 and leaves active=true, connected=false,
grabbed=false, from where the disconnected handler leads back to active=false.
The class methods are those installed by `virt_viewer_app_class_init`. -/
theorem disconnected_leaves_inactive (self : VirtViewerApp) (h : self.priv.active = true) :
    let r := virt_viewer_app_disconnected virt_viewer_app_class_init self
    (Effect.session_close ∈ r.effects ↔ self.priv.session.isSome = true) ∧
    r.self.priv.active = false ∧ r.self.priv.connected = false ∧
    r.self.priv.grabbed = false ∧
    r.self.priv.host = self.priv.host ∧ r.self.priv.port = self.priv.port ∧
    r.self.priv.user = self.priv.user ∧ r.self.priv.transport = self.priv.transport ∧
    r.self.priv.ghost = self.priv.ghost ∧ r.self.priv.gport = self.priv.gport ∧
    r.self.priv.unixsock = self.priv.unixsock ∧ r.self.priv.direct = self.priv.direct ∧
    r.self.priv.session = self.priv.session ∧
    r.self.priv.pretty_address = self.priv.pretty_address ∧
    (∀ (env : Env) (self0 : VirtViewerApp), self0.priv.active = false →
      0 ≤ (virt_viewer_app_activate env self0).ret →
      (virt_viewer_app_activate env self0).self.priv.active = true ∧
      (virt_viewer_app_activate env self0).self.priv.connected = false ∧
      (virt_viewer_app_activate env self0).self.priv.grabbed = false) ∧
    (∀ (env : Env) (self0 : VirtViewerApp), self0.priv.active = false →
      use_ssh_tunnel self0.priv = false → self0.priv.unixsock = none →
      (virt_viewer_app_activate env self0).ret
        = env.session_open_host self0.priv.ghost self0.priv.gport ∧
      (virt_viewer_app_activate env self0).self
        = { self0 with priv :=
            { self0.priv with connected := false, active := true, grabbed := false } }) ∧
    (app_tcp.priv.active = false ∧
      (virt_viewer_app_activate env_ok app_tcp).ret = 0 ∧
      (virt_viewer_app_activate env_ok app_tcp).self.priv.active = true ∧
      (virt_viewer_app_activate env_ok app_tcp).self.priv.connected = false ∧
      (virt_viewer_app_activate env_ok app_tcp).self.priv.grabbed = false ∧
      (virt_viewer_app_disconnected virt_viewer_app_class_init
        (virt_viewer_app_activate env_ok app_tcp).self).self.priv.active = false) := by
  intro r
  obtain ⟨hself, heff⟩ := deactivate_default_spec self h
  have hrs : r.self = (virt_viewer_app_deactivate virt_viewer_app_class_init self).self := rfl
  have hre : r.effects = (if !self.priv.connected then
      [Effect.simple_message_dialog "Unable to connect to the graphic server %s"
        [self.priv.pretty_address]] else [])
      ++ (virt_viewer_app_deactivate virt_viewer_app_class_init self).effects := rfl
  rw [hself] at hrs
  rw [heff] at hre
  refine ⟨?_, by rw [hrs], by rw [hrs], by rw [hrs], by rw [hrs], by rw [hrs], by rw [hrs],
    by rw [hrs], by rw [hrs], by rw [hrs], by rw [hrs], by rw [hrs], by rw [hrs], by rw [hrs], ?_, ?_, by decide⟩
  · rw [hre]
    constructor
    · intro hmem
      by_contra hno
      have hno : self.priv.session.isSome = false := by simpa using hno
      rw [hno] at hmem
      simp only [List.mem_append] at hmem
      rcases hmem with hmem | (hmem | hmem) | hmem
      · split at hmem <;> simp at hmem
      · simp at hmem
      · obtain ⟨w, hw⟩ := mem_titles _ _ hmem
        exact absurd hw (by simp)
      · split at hmem <;> simp at hmem
    · intro hs
      rw [hs]
      simp
  · intro env self0 h0 hret
    rcases activate_inactive_cases env self0 h0 with ⟨hneg, -, -, -⟩ | ⟨fd, pre, heq⟩
    · rw [hneg] at hret
      exact absurd hret (by decide)
    · rw [heq, (activate_open_spec env self0 fd pre).2.1]
      exact ⟨rfl, rfl, rfl⟩
  · intro env self0 h0 hs hp
    rw [activate_tcp_eq env self0 h0 hs hp]
    obtain ⟨e1, e2, -⟩ := activate_open_spec env self0 (-1) []
    exact ⟨by rw [e1]; simp, e2⟩

/-- C6 (witness): the handler on the state reached by the successful
activation of `app_tcp`, and on `app_active`; both have a session. -/
theorem disconnected_leaves_inactive_witness :
    (virt_viewer_app_activate env_ok app_tcp).ret = 0 ∧
    (virt_viewer_app_activate env_ok app_tcp).self.priv.active = true ∧
    Effect.session_close ∈
      (virt_viewer_app_disconnected virt_viewer_app_class_init
        (virt_viewer_app_activate env_ok app_tcp).self).effects ∧
    (virt_viewer_app_disconnected virt_viewer_app_class_init
      (virt_viewer_app_activate env_ok app_tcp).self).self.priv.active = false ∧
    app_active.priv.active = true ∧
    Effect.session_close ∈
      (virt_viewer_app_disconnected virt_viewer_app_class_init app_active).effects ∧
    (virt_viewer_app_disconnected virt_viewer_app_class_init app_active).self.priv.active
      = false :=
  have g := disconnected_leaves_inactive (virt_viewer_app_activate env_ok app_tcp).self
    (by decide)
  have h := disconnected_leaves_inactive app_active (by decide)
  ⟨by decide, by decide, g.1.mpr (by decide), g.2.1, by decide, h.1.mpr (by decide), h.2.1⟩

/-- C7: the auth-refused handler sets the auth-retry flag to (answer == yes);
the auth-failed, connected and activate operations leave the flag as it is, so
only an auth-refused event answered yes arms it. On the disconnected event of
an active controller: if the flag is armed it is cleared, exactly one retry is
put on the idle queue and the deactivated hook is not invoked; if it is not
armed the deactivated hook is invoked and no retry is queued. The queued retry
`virt_viewer_app_retryauth` calls initial-connect once, returns FALSE so the
idle source is removed, queues nothing and leaves the flag as it is. The class
methods are those installed by `virt_viewer_app_class_init`. -/
theorem auth_retry_protocol :
    (∀ (response : Int) (msg : CStr) (self : VirtViewerApp),
      (virt_viewer_app_auth_refused response msg self).self.priv.authretry
        = decide (response = GTK_RESPONSE_YES)) ∧
    (∀ (msg : CStr) (self : VirtViewerApp),
      (virt_viewer_app_auth_failed msg self).self = self) ∧
    (∀ (self : VirtViewerApp),
      (virt_viewer_app_connected self).self.priv.authretry = self.priv.authretry) ∧
    (∀ (env : Env) (self : VirtViewerApp),
      (virt_viewer_app_activate env self).self.priv.authretry = self.priv.authretry) ∧
    (∀ (self : VirtViewerApp), self.priv.active = true → self.priv.authretry = true →
      (virt_viewer_app_disconnected virt_viewer_app_class_init self).self.priv.authretry
        = false ∧
      List.count Effect.g_idle_add_retryauth
        (virt_viewer_app_disconnected virt_viewer_app_class_init self).effects = 1 ∧
      Effect.klass_deactivated ∉
        (virt_viewer_app_disconnected virt_viewer_app_class_init self).effects) ∧
    (∀ (self : VirtViewerApp), self.priv.active = true → self.priv.authretry = false →
      (virt_viewer_app_disconnected virt_viewer_app_class_init self).self.priv.authretry
        = false ∧
      List.count Effect.klass_deactivated
        (virt_viewer_app_disconnected virt_viewer_app_class_init self).effects = 1 ∧
      Effect.g_idle_add_retryauth ∉
        (virt_viewer_app_disconnected virt_viewer_app_class_init self).effects) ∧
    (∀ (env : Env) (self : VirtViewerApp),
      (virt_viewer_app_retryauth virt_viewer_app_class_init env self).ret = false ∧
      List.count Effect.klass_initial_connect
        (virt_viewer_app_retryauth virt_viewer_app_class_init env self).effects = 1 ∧
      Effect.g_idle_add_retryauth ∉
        (virt_viewer_app_retryauth virt_viewer_app_class_init env self).effects ∧
      (virt_viewer_app_retryauth virt_viewer_app_class_init env self).self.priv.authretry
        = self.priv.authretry) := by
  refine ⟨?_, ?_, ?_, ?_, ?_, ?_, ?_⟩
  · intro response msg self
    by_cases hr : response = GTK_RESPONSE_YES <;> simp [virt_viewer_app_auth_refused, hr]
  · intro msg self
    rfl
  · intro self
    rfl
  · intro env self
    exact (activate_plain env self).2
  · intro self ha hr
    have hs : (virt_viewer_app_disconnected virt_viewer_app_class_init self).self
        = (virt_viewer_app_deactivate virt_viewer_app_class_init self).self := rfl
    refine ⟨by rw [hs, (deactivate_default_spec self ha).1], ?_, ?_⟩
    · rw [disconnected_default_effects self ha, hr]
      simp only [List.count_append, if_true]
      rw [titles_count_zero _ _ (by simp)]
      cases self.priv.connected <;> cases self.priv.session <;> simp
    · rw [disconnected_default_effects self ha, hr]
      intro hmem
      simp only [List.mem_append] at hmem
      rcases hmem with hmem | (hmem | hmem) | hmem
      · split at hmem <;> simp at hmem
      · split at hmem <;> simp at hmem
      · obtain ⟨w, hw⟩ := mem_titles _ _ hmem
        exact absurd hw (by simp)
      · simp at hmem
  · intro self ha hr
    have hs : (virt_viewer_app_disconnected virt_viewer_app_class_init self).self
        = (virt_viewer_app_deactivate virt_viewer_app_class_init self).self := rfl
    refine ⟨by rw [hs, (deactivate_default_spec self ha).1], ?_, ?_⟩
    · rw [disconnected_default_effects self ha, hr]
      simp only [List.count_append]
      rw [titles_count_zero _ _ (by simp)]
      cases self.priv.connected <;> cases self.priv.session <;> simp
    · rw [disconnected_default_effects self ha, hr]
      intro hmem
      simp only [List.mem_append] at hmem
      rcases hmem with hmem | (hmem | hmem) | hmem
      · split at hmem <;> simp at hmem
      · split at hmem <;> simp at hmem
      · obtain ⟨w, hw⟩ := mem_titles _ _ hmem
        exact absurd hw (by simp)
      · simp at hmem
  · intro env self
    have he : (virt_viewer_app_retryauth virt_viewer_app_class_init env self).effects
        = Effect.klass_initial_connect :: (virt_viewer_app_activate env self).effects := rfl
    have hs : (virt_viewer_app_retryauth virt_viewer_app_class_init env self).self
        = (virt_viewer_app_activate env self).self := rfl
    obtain ⟨hplain, hauth⟩ := activate_plain env self
    refine ⟨rfl, ?_, ?_, by rw [hs, hauth]⟩
    · rw [he, List.count_cons_self]
      have : List.count Effect.klass_initial_connect
          (virt_viewer_app_activate env self).effects = 0 := by
        apply List.count_eq_zero.mpr
        intro hmem
        exact absurd (hplain _ hmem) (by decide)
      rw [this]
    · rw [he]
      intro hmem
      rcases List.mem_cons.mp hmem with hmem | hmem
      · exact absurd hmem (by simp)
      · exact absurd (hplain _ hmem) (by decide)

/-- C8 (counterexample): a controller that is not active but whose connected
flag is set, with auth-retry not armed. The disconnected handler reports no
error and deactivation returns at its guard: the deactivated hook is not
reached, and nothing at all is called. -/
theorem disconnected_inactive_skips_hook :
    app_stale.priv.connected = true ∧ app_stale.priv.authretry = false ∧
    app_stale.priv.active = false ∧
    (virt_viewer_app_disconnected virt_viewer_app_class_init app_stale).effects = [] ∧
    Effect.klass_deactivated ∉
      (virt_viewer_app_disconnected virt_viewer_app_class_init app_stale).effects := by
  decide

/-- C8 (amended): for every controller state, the disconnected handler reports
the connection-failure error naming the pretty address if and only if
connected is false at the time of the event, and that is the only error it
reports; when connected is true and the controller is active the disconnect
reaches the deactivated hook unless auth-retry is armed, and then it does not;
when the controller is not active deactivation returns at its guard, the hook
is not reached and the controller is left as it was. In every case what follows
the report is `virt_viewer_app_deactivate`. The class methods are those
installed by `virt_viewer_app_class_init`. -/
theorem disconnected_report_iff_not_connected (self : VirtViewerApp) :
    let r := virt_viewer_app_disconnected virt_viewer_app_class_init self
    let d := virt_viewer_app_deactivate virt_viewer_app_class_init self
    (Effect.simple_message_dialog "Unable to connect to the graphic server %s"
        [self.priv.pretty_address] ∈ r.effects ↔ self.priv.connected = false) ∧
    (reports_error r.effects = true ↔ self.priv.connected = false) ∧
    (self.priv.active = true → self.priv.authretry = false →
      Effect.klass_deactivated ∈ r.effects) ∧
    (self.priv.active = true → self.priv.authretry = true →
      Effect.klass_deactivated ∉ r.effects) ∧
    (self.priv.active = false → Effect.klass_deactivated ∉ r.effects ∧ r.self = self) ∧
    r.effects = (if self.priv.connected then [] else
      [Effect.simple_message_dialog "Unable to connect to the graphic server %s"
        [self.priv.pretty_address]]) ++ d.effects ∧
    r.self = d.self := by
  intro r d
  have hre : r.effects = (if !self.priv.connected then
      [Effect.simple_message_dialog "Unable to connect to the graphic server %s"
        [self.priv.pretty_address]] else []) ++ d.effects := rfl
  have hrs : r.self = d.self := rfl
  have hd : reports_error d.effects = false ∧
      (∀ f a, Effect.simple_message_dialog f a ∉ d.effects) ∧
      (self.priv.active = true → self.priv.authretry = false →
        Effect.klass_deactivated ∈ d.effects) ∧
      (self.priv.active = true → self.priv.authretry = true →
        Effect.klass_deactivated ∉ d.effects) := by
    cases ha : self.priv.active with
    | false =>
      have := (deactivate_inactive virt_viewer_app_class_init self ha).2
      have hde : d.effects = [] := this
      rw [hde]
      simp [reports_error]
    | true =>
      have hde : d.effects = _ := (deactivate_default_spec self ha).2
      have hmem : ∀ x ∈ d.effects, x = Effect.session_close ∨
          (∃ w, x = Effect.window_update_title w) ∨
          (self.priv.authretry = true ∧ x = Effect.g_idle_add_retryauth) ∨
          (self.priv.authretry = false ∧ is_loop_effect x = true) ∨
          (∃ t, x = Effect.set_status t) ∨ (∃ t, x = Effect.trace t) := by
        intro x hx
        rw [hde] at hx
        simp only [List.mem_append] at hx
        rcases hx with (hx | hx) | hx
        · split at hx
          · left; simpa using hx
          · simp at hx
        · right; left; exact mem_titles _ _ hx
        · cases hr : self.priv.authretry with
          | true =>
            rw [hr] at hx
            right; right; left
            exact ⟨rfl, by simpa using hx⟩
          | false =>
            rw [hr] at hx
            simp at hx
            rcases hx with hx | hx | hx | hx
            · right; right; right; left; exact ⟨rfl, by rw [hx]; rfl⟩
            · right; right; right; right; left; exact ⟨_, hx⟩
            · right; right; right; right; right; exact ⟨_, hx⟩
            · right; right; right; left; exact ⟨rfl, by rw [hx]; rfl⟩
      have hnod : ∀ f a, Effect.simple_message_dialog f a ∉ d.effects := by
        intro f a hx
        rcases hmem _ hx with hx | ⟨w, hx⟩ | ⟨-, hx⟩ | ⟨-, hx⟩ | ⟨t, hx⟩ | ⟨t, hx⟩
        · exact absurd hx (by simp)
        · exact absurd hx (by simp)
        · exact absurd hx (by simp)
        · exact absurd hx (by simp [is_loop_effect])
        · exact absurd hx (by simp)
        · exact absurd hx (by simp)
      refine ⟨?_, hnod, ?_, ?_⟩
      · unfold reports_error
        rw [List.any_eq_false]
        intro x hx
        rcases hmem _ hx with hx | ⟨w, hx⟩ | ⟨-, hx⟩ | ⟨-, hx⟩ | ⟨t, hx⟩ | ⟨t, hx⟩
        · rw [hx]; simp
        · rw [hx]; simp
        · rw [hx]; simp
        · cases x <;> first | (simp [is_loop_effect] at hx; done) | simp
        · rw [hx]; simp
        · rw [hx]; simp
      · intro _ hr
        rw [hde, hr]
        simp
      · intro _ hr hx
        rcases hmem _ hx with hx | ⟨w, hx⟩ | ⟨-, hx⟩ | ⟨hf, -⟩ | ⟨t, hx⟩ | ⟨t, hx⟩
        · exact absurd hx (by simp)
        · exact absurd hx (by simp)
        · exact absurd hx (by simp)
        · rw [hr] at hf; exact absurd hf (by simp)
        · exact absurd hx (by simp)
        · exact absurd hx (by simp)
  obtain ⟨hd1, hd2, hd3, hd4⟩ := hd
  refine ⟨?_, ?_, ?_, ?_, ?_, ?_, hrs⟩
  · rw [hre]
    cases hc : self.priv.connected with
    | true =>
      simp only [Bool.not_true, Bool.false_eq_true, if_false, List.nil_append]
      constructor
      · intro hx; exact absurd hx (hd2 _ _)
      · intro hx; exact absurd hx (by simp)
    | false => simp
  · rw [hre]
    unfold reports_error at hd1 ⊢
    cases hc : self.priv.connected <;> simp [List.any_append, hd1]
  · intro ha hr
    rw [hre]
    exact List.mem_append_right _ (hd3 ha hr)
  · intro ha hr hx
    rw [hre] at hx
    rcases List.mem_append.mp hx with hx | hx
    · split at hx <;> simp at hx
    · exact hd4 ha hr hx
  · intro ha
    obtain ⟨e1, e2⟩ := deactivate_inactive virt_viewer_app_class_init self ha
    have hde : d.effects = [] := e2
    have hds : d.self = self := e1
    refine ⟨?_, by rw [hrs, hds]⟩
    rw [hre, hde]
    intro hx
    rcases List.mem_append.mp hx with hx | hx
    · split at hx <;> simp at hx
    · simp at hx
  · rw [hre]
    cases self.priv.connected <;> rfl

/-- C9: start from the controller built by the constructor, whose table holds
index 0 mapped to the main window, and deliver any finite sequence of
display-added and display-removed events with arbitrary indices. Afterwards
index 0 is present and mapped to the main window made by the constructor; no
index has two entries in the table; no two different indices map to the same
window (in particular no two nonzero ones); and a display-removed event for a
nonzero index delivered now leaves that index absent. -/
theorem display_registry_invariant (container : Option GtkWidget) (heap : Nat)
    (evs : List DisplayEvent) :
    let s0 := (virt_viewer_app_constructor container heap).self
    let s := display_events s0 evs
    s0.priv.windows = [(0, heap)] ∧ s0.priv.main_window = some heap ∧
    s.priv.main_window = some heap ∧
    virt_viewer_app_get_nth_window s 0 = some heap ∧
    (g_hash_table_keys s.priv.windows).Nodup ∧
    (∀ (i j : Int) (w : VirtViewerWindow), i ≠ j →
      virt_viewer_app_get_nth_window s i = some w →
      virt_viewer_app_get_nth_window s j ≠ some w) ∧
    (∀ d : VirtViewerDisplay, d.nth_display ≠ 0 →
      virt_viewer_app_get_nth_window (virt_viewer_app_display_removed d s).self
        d.nth_display = none) := by
  intro s0 s
  obtain ⟨c1, c2, -, cinv⟩ := constructor_inv container heap
  have hinv : registry_inv s heap := display_events_inv evs s0 heap cinv
  obtain ⟨i1, i2, i3, i4, i5⟩ := hinv
  refine ⟨c1, c2, i1, i2, i3, ?_, ?_⟩
  · intro i j w hij hi hj
    exact hij (lookup_injective _ i j w i4 hi hj)
  · intro d hd
    unfold virt_viewer_app_get_nth_window
    rw [display_removed_self]
    split
    · exact lookup_remove_self _ _ i3
    · rename_i hc
      cases hl : g_hash_table_lookup s.priv.windows d.nth_display with
      | none => rfl
      | some w => exact absurd ⟨hd, by rw [hl]; rfl⟩ hc

/-- C10: display registration violations are refused. For every controller
state and every display with a nonzero index: (a) display-added while an
embedding container is set, (b) display-added while the index is already
registered, and (c) display-removed while the index is not registered each
leave the controller, and so the index-to-window table, exactly as it was,
create no window and attach no display to any window. -/
theorem display_violations_refused (self : VirtViewerApp) (d : VirtViewerDisplay)
    (hn : d.nth_display ≠ 0) :
    (self.priv.container.isSome = true →
      (virt_viewer_app_display_added d self).self = self ∧
      (virt_viewer_app_display_added d self).self.priv.windows = self.priv.windows ∧
      creates_window (virt_viewer_app_display_added d self).effects = false ∧
      attaches_display (virt_viewer_app_display_added d self).effects = false) ∧
    ((virt_viewer_app_get_nth_window self d.nth_display).isSome = true →
      (virt_viewer_app_display_added d self).self = self ∧
      (virt_viewer_app_display_added d self).self.priv.windows = self.priv.windows ∧
      creates_window (virt_viewer_app_display_added d self).effects = false ∧
      attaches_display (virt_viewer_app_display_added d self).effects = false) ∧
    (virt_viewer_app_get_nth_window self d.nth_display = none →
      (virt_viewer_app_display_removed d self).self = self ∧
      (virt_viewer_app_display_removed d self).self.priv.windows = self.priv.windows ∧
      creates_window (virt_viewer_app_display_removed d self).effects = false ∧
      attaches_display (virt_viewer_app_display_removed d self).effects = false) := by
  refine ⟨?_, ?_, ?_⟩
  · intro hc
    simp [virt_viewer_app_display_added, hn, hc, creates_window, attaches_display]
  · intro hr
    cases hc : self.priv.container.isSome <;>
      simp [virt_viewer_app_display_added, hn, hc, hr, creates_window, attaches_display]
  · intro hr
    have hl : g_hash_table_lookup self.priv.windows d.nth_display = none := hr
    simp [virt_viewer_app_display_removed, virt_viewer_app_remove_nth_window, hn, hr, hl,
      creates_window, attaches_display]

/-- C10 (witness): display 1 is removed from `app_tcp`, where only index 0 is
registered. -/
theorem display_violations_refused_witness :
    (virt_viewer_app_display_removed { id := 9, nth_display := 1 } app_tcp).self = app_tcp ∧
    attaches_display
      (virt_viewer_app_display_removed { id := 9, nth_display := 1 } app_tcp).effects
        = false :=
  have h := display_violations_refused app_tcp { id := 9, nth_display := 1 } (by decide)
  ⟨(h.2.2 (by decide)).1, (h.2.2 (by decide)).2.2.2⟩

/-- C11: the reconnect scheduler keeps at most one timer.
`virt_viewer_app_start_reconnect_poll` called while a nonzero handle is stored
registers nothing and leaves the controller unchanged, so two consecutive
starts from handle 0 register exactly one timer, of period 500 ms, whose id is
the stored handle. Each tick of `virt_viewer_app_connect_timer` calls
initial-connect exactly when the controller is not active, calls
`gtk_main_quit` exactly when that attempt was made and returned a negative
status, and then returns FALSE (the timer is removed) exactly when the
controller is active after the attempt, in which case the stored handle is 0;
otherwise it returns TRUE and the handle is unchanged. The class methods are
those installed by `virt_viewer_app_class_init`. -/
theorem reconnect_poll_single_flight :
    (∀ (env : Env) (self : VirtViewerApp), self.priv.reconnect_poll ≠ 0 →
      (virt_viewer_app_start_reconnect_poll env self).self = self ∧
      (virt_viewer_app_start_reconnect_poll env self).effects = [] ∧
      timers_registered (virt_viewer_app_start_reconnect_poll env self).effects = 0) ∧
    (∀ (env1 env2 : Env) (self : VirtViewerApp), self.priv.reconnect_poll = 0 →
      (virt_viewer_app_start_reconnect_poll env1 self).effects
        ++ (virt_viewer_app_start_reconnect_poll env2
            (virt_viewer_app_start_reconnect_poll env1 self).self).effects
        = [Effect.g_timeout_add_connect_timer 500 (env1.timeout_source + 1)] ∧
      timers_registered ((virt_viewer_app_start_reconnect_poll env1 self).effects
        ++ (virt_viewer_app_start_reconnect_poll env2
            (virt_viewer_app_start_reconnect_poll env1 self).self).effects) = 1 ∧
      (virt_viewer_app_start_reconnect_poll env2
        (virt_viewer_app_start_reconnect_poll env1 self).self).self.priv.reconnect_poll
        = env1.timeout_source + 1) ∧
    (∀ (env : Env) (self : VirtViewerApp),
      (Effect.klass_initial_connect ∈
          (virt_viewer_app_connect_timer virt_viewer_app_class_init env self).effects
        ↔ self.priv.active = false) ∧
      List.count Effect.klass_initial_connect
        (virt_viewer_app_connect_timer virt_viewer_app_class_init env self).effects ≤ 1 ∧
      (Effect.gtk_main_quit ∈
          (virt_viewer_app_connect_timer virt_viewer_app_class_init env self).effects
        ↔ self.priv.active = false ∧
          (virt_viewer_app_initial_connect virt_viewer_app_class_init env self).ret < 0) ∧
      ((virt_viewer_app_connect_timer virt_viewer_app_class_init env self).ret = false ↔
        (virt_viewer_app_connect_timer virt_viewer_app_class_init env self).self.priv.active
          = true) ∧
      ((virt_viewer_app_connect_timer virt_viewer_app_class_init env self).self.priv.active
          = true →
        (virt_viewer_app_connect_timer virt_viewer_app_class_init env
          self).self.priv.reconnect_poll = 0) ∧
      ((virt_viewer_app_connect_timer virt_viewer_app_class_init env self).self.priv.active
          = false →
        (virt_viewer_app_connect_timer virt_viewer_app_class_init env self).ret = true ∧
        (virt_viewer_app_connect_timer virt_viewer_app_class_init env
          self).self.priv.reconnect_poll = self.priv.reconnect_poll) ∧
      (virt_viewer_app_connect_timer virt_viewer_app_class_init env self).self.priv.active
        = (if self.priv.active then true
           else (virt_viewer_app_initial_connect virt_viewer_app_class_init env
             self).self.priv.active)) := by
  refine ⟨?_, ?_, ?_⟩
  · intro env self h
    simp [virt_viewer_app_start_reconnect_poll, h, timers_registered]
  · intro env1 env2 self h
    simp [virt_viewer_app_start_reconnect_poll, h, timers_registered]
  · intro env self
    have hic : virt_viewer_app_initial_connect virt_viewer_app_class_init env self
        = { ret := (virt_viewer_app_activate env self).ret,
            self := (virt_viewer_app_activate env self).self,
            effects := Effect.klass_initial_connect
              :: (virt_viewer_app_activate env self).effects } := rfl
    rw [hic]
    cases ha : self.priv.active with
    | true =>
      obtain ⟨h1, h2, h3⟩ := connect_timer_active env self ha
      rw [h1, h2, h3]
      simp [ha]
    | false =>
      obtain ⟨h1, h2, h3, h4⟩ := connect_timer_inactive env self ha
      obtain ⟨hplain, -⟩ := activate_plain env self
      have hnic : Effect.klass_initial_connect ∉ (virt_viewer_app_activate env self).effects :=
        fun hm => absurd (hplain _ hm) (by decide)
      have hnq : Effect.gtk_main_quit ∉ (virt_viewer_app_activate env self).effects :=
        fun hm => absurd (hplain _ hm) (by decide)
      rw [h1, h2, h3, h4]
      refine ⟨by simp, ?_, ?_, by simp, ?_, ?_, by simp⟩
      · rw [List.count_cons_of_ne (by simp), List.count_cons_self, List.count_append,
          List.count_eq_zero.mpr hnic]
        split <;> simp
      · by_cases hr : (virt_viewer_app_activate env self).ret < 0
        · simp [hr]
        · simp [hr, hnq]
      · intro hact
        simp [hact]
      · intro hact
        simp [hact]

/-- C12 (counterexample): the controller holds the clipboard text "old" and the
remote text "x" cannot be transcoded. After the cut-text event the stored text
is NULL, not "old". -/
theorem cut_text_failure_drops_stored_text :
    app_clip.priv.clipboard = some "old" ∧
    env_no_convert.g_convert "x" = none ∧
    (virt_viewer_app_server_cut_text env_no_convert (some "x") app_clip).self.priv.clipboard
      = none ∧
    (virt_viewer_app_server_cut_text env_no_convert (some "x") app_clip).self.priv.clipboard
      ≠ app_clip.priv.clipboard := by
  decide

/-- C12 (amended): for every stored clipboard text and every remote text
whose transcoding fails, the cut-text handler leaves the stored clipboard text
empty (the text stored before is released, not kept), changes nothing else and
registers no clipboard offer. When transcoding succeeds the stored text is
replaced by the transcoded text, one offer is registered and a later selection
request is served that stored text verbatim. A NULL remote text changes
nothing. -/
theorem cut_text_replaces_stored_text (env : Env) (self : VirtViewerApp) :
    ((virt_viewer_app_server_cut_text env none self).self = self ∧
      (virt_viewer_app_server_cut_text env none self).effects = []) ∧
    (∀ t : String, env.g_convert t = none →
      (virt_viewer_app_server_cut_text env (some t) self).self
        = { self with priv := { self.priv with clipboard := none } } ∧
      (virt_viewer_app_server_cut_text env (some t) self).self.priv.clipboard = none ∧
      (virt_viewer_app_server_cut_text env (some t) self).effects = [] ∧
      offers_clipboard (virt_viewer_app_server_cut_text env (some t) self).effects = false) ∧
    (∀ t u : String, env.g_convert t = some u →
      (virt_viewer_app_server_cut_text env (some t) self).self
        = { self with priv := { self.priv with clipboard := some u } } ∧
      (virt_viewer_app_server_cut_text env (some t) self).self.priv.clipboard = some u ∧
      (virt_viewer_app_server_cut_text env (some t) self).effects
        = [Effect.clipboard_set_with_owner ["UTF8_STRING", "COMPOUND_TEXT", "TEXT", "STRING"]] ∧
      offers_clipboard (virt_viewer_app_server_cut_text env (some t) self).effects = true ∧
      (virt_viewer_app_clipboard_copy
        (virt_viewer_app_server_cut_text env (some t) self).self).effects
        = [Effect.selection_data_set_text (some u)]) := by
  refine ⟨⟨rfl, rfl⟩, ?_, ?_⟩
  · intro t ht
    simp [virt_viewer_app_server_cut_text, ht, offers_clipboard]
  · intro t u ht
    simp [virt_viewer_app_server_cut_text, ht, offers_clipboard, virt_viewer_app_clipboard_copy]

/-- C13 (counterexample): a call that supplies both the target port "5900" and
the socket path "/tmp/s" is stored as it is: afterwards both gport and unixsock
are set. -/
theorem set_connect_info_accepts_port_and_socket :
    (virt_viewer_app_set_connect_info app_fresh (some "relay") (some "guest") (some "5900")
      (some "ssh") (some "/tmp/s") (some "u") 22).self.priv.gport = some "5900" ∧
    (virt_viewer_app_set_connect_info app_fresh (some "relay") (some "guest") (some "5900")
      (some "ssh") (some "/tmp/s") (some "u") 22).self.priv.unixsock = some "/tmp/s" := by
  decide

/-- C13 (amended): after every call of `virt_viewer_app_set_connect_info` the
stored gport and unixsock are the values supplied, so both are set when both
are supplied: nothing is rejected or dropped. A subsequent activation still
uses one target kind. The tunnel command ends in target host and port when
gport is set, whatever unixsock is, and in "-U" and the socket path only when
gport is unset; without the tunnel, the activation connects to the local socket
whenever unixsock is set and fits the 108-byte `sun_path` (a longer path
overflows that array at line 294 and is left out), whatever gport is, never
using open(host, service), and uses open(host, service) with ghost and gport
when unixsock is unset. -/
theorem set_connect_info_stores_as_given (self : VirtViewerApp)
    (host ghost gport transport unixsock user : CStr) (port : Int) :
    let s := (virt_viewer_app_set_connect_info self host ghost gport transport unixsock
      user port).self
    s.priv.gport = gport ∧ s.priv.unixsock = unixsock ∧ s.priv.ghost = ghost ∧
    (∀ p : String, gport = some p →
      [Slot.ptr ghost, Slot.ptr (some p), Slot.ptr none]
        <:+ (virt_viewer_app_open_tunnel_ssh_cmd s.priv.host s.priv.port s.priv.user
          s.priv.ghost s.priv.gport s.priv.unixsock).written) ∧
    (gport = none →
      [Slot.ptr (some "-U"), Slot.ptr unixsock, Slot.ptr none]
        <:+ (virt_viewer_app_open_tunnel_ssh_cmd s.priv.host s.priv.port s.priv.user
          s.priv.ghost s.priv.gport s.priv.unixsock).written) ∧
    (∀ (env : Env) (path : String), s.priv.active = false →
      use_ssh_tunnel s.priv = false → unixsock = some path → fits_sun_path path = true →
      Effect.sys_socket ∈ (virt_viewer_app_activate env s).effects ∧
      (∀ fd, env.socket = some fd →
        Effect.sys_connect fd path ∈ (virt_viewer_app_activate env s).effects) ∧
      (∀ e ∈ (virt_viewer_app_open_unix_sock env path).2,
        e ∈ (virt_viewer_app_activate env s).effects) ∧
      opens_by_host (virt_viewer_app_activate env s).effects = false ∧
      (∀ b n, Effect.buffer_overflow b n ∉ (virt_viewer_app_activate env s).effects)) ∧
    (∀ env : Env, s.priv.active = false → use_ssh_tunnel s.priv = false →
      unixsock = none →
      Effect.session_open_host ghost gport ∈ (virt_viewer_app_activate env s).effects ∧
      does_transport_work (virt_viewer_app_activate env s).effects = false) := by
  intro s
  have hs : s = _ := set_connect_info_priv self host ghost gport transport unixsock user port
  have h1 : s.priv.gport = gport := by rw [hs]
  have h2 : s.priv.unixsock = unixsock := by rw [hs]
  have h3 : s.priv.ghost = ghost := by rw [hs]
  refine ⟨h1, h2, h3, ?_, ?_, ?_, ?_⟩
  · intro p hp
    rw [h1, h3, hp]
    exact cmd_target_port _ _ _ _ _ _
  · intro hp
    rw [h1, h2, hp]
    exact cmd_target_socket _ _ _ _ _
  · intro env path ha hssh hp hf
    have hp2 : s.priv.unixsock = some path := by rw [h2, hp]
    obtain ⟨o1, o2⟩ := activate_unix_obs env s ha hssh path hp2
    obtain ⟨f1, f2, -, -⟩ := open_unix_sock_fits env path hf
    have hdef : activate_defined s.priv = true := by
      simp [activate_defined, hssh, hp2, hf]
    exact ⟨o1 _ f1, fun fd hfd => o1 _ (f2 fd hfd), o1, o2, activate_no_overflow env s hdef⟩
  · intro env ha hssh hp
    have := activate_tcp_obs env s ha hssh (by rw [h2, hp])
    rw [h1, h3] at this
    exact this

/-- C14: for every port argument p, after `virt_viewer_app_set_connect_info`
the stored relay port is 0, host, ghost, gport, transport, unixsock and user
are stored as given, and the pretty address is ghost:gport when gport is set
and host:unixsock otherwise (a NULL printed as "(null)"). Every tunnel command
spawned by an activation or a channel-open on that state begins
`ssh -p 22`, whatever p was. With the ssh transport, when `socketpair` and
`fork` succeed and the child can duplicate its descriptor (so it reaches
`execvp`), an activation of an inactive controller and a channel-open each
spawn exactly one such command; when the child cannot, nothing is executed.
Example: after the call with relay port 2222 on `app_fresh`, the pretty address
is "guest:5900", activation spawns `ssh -p 22 -l u relay nc guest 5900` and
channel-open spawns the same command; with `socketpair` returning descriptors
0 and 1 the child exits before `execvp` and nothing is spawned. -/
theorem set_connect_info_discards_port (self : VirtViewerApp)
    (host ghost gport transport unixsock user : CStr) (port : Int) :
    let s := (virt_viewer_app_set_connect_info self host ghost gport transport unixsock
      user port).self
    s.priv.port = 0 ∧ s.priv.host = host ∧ s.priv.ghost = ghost ∧ s.priv.gport = gport ∧
    s.priv.transport = transport ∧ s.priv.unixsock = unixsock ∧ s.priv.user = user ∧
    s.priv.pretty_address = some (if gport.isSome then printf_s ghost ++ ":" ++ printf_s gport
      else printf_s host ++ ":" ++ printf_s unixsock) ∧
    (∀ env : Env, ∀ argv ∈ spawned_argvs (virt_viewer_app_activate env s).effects,
      argv.take 3 = ["ssh", "-p", "22"]) ∧
    (∀ (env : Env) (channel : Nat),
      ∀ argv ∈ spawned_argvs (virt_viewer_app_channel_open env channel s).effects,
        argv.take 3 = ["ssh", "-p", "22"]) ∧
    (∀ env : Env, s.priv.active = false → use_ssh_tunnel s.priv = true →
      tunnel_child_execs env = true →
      ∃ argv, spawned_argvs (virt_viewer_app_activate env s).effects = [argv] ∧
        argv.take 3 = ["ssh", "-p", "22"]) ∧
    (∀ (env : Env) (channel : Nat), use_ssh_tunnel s.priv = true →
      tunnel_child_execs env = true →
      ∃ argv, spawned_argvs (virt_viewer_app_channel_open env channel s).effects = [argv] ∧
        argv.take 3 = ["ssh", "-p", "22"]) ∧
    (∀ env : Env, tunnel_child_execs env = false →
      spawned_argvs (virt_viewer_app_activate env s).effects = []) ∧
    (virt_viewer_app_set_connect_info app_fresh (some "relay") (some "guest") (some "5900")
      (some "ssh") none (some "u") 2222).self.priv.port = 0 ∧
    (virt_viewer_app_set_connect_info app_fresh (some "relay") (some "guest") (some "5900")
      (some "ssh") none (some "u") 2222).self.priv.pretty_address = some "guest:5900" ∧
    spawned_argvs (virt_viewer_app_activate env_ok
      (virt_viewer_app_set_connect_info app_fresh (some "relay") (some "guest") (some "5900")
        (some "ssh") none (some "u") 2222).self).effects
      = [["ssh", "-p", "22", "-l", "u", "relay", "nc", "guest", "5900"]] ∧
    spawned_argvs (virt_viewer_app_channel_open env_ok 3
      (virt_viewer_app_set_connect_info app_fresh (some "relay") (some "guest") (some "5900")
        (some "ssh") none (some "u") 2222).self).effects
      = [["ssh", "-p", "22", "-l", "u", "relay", "nc", "guest", "5900"]] ∧
    tunnel_child_execs env_ok = true ∧ tunnel_child_execs env_std_closed = false ∧
    spawned_argvs (virt_viewer_app_activate env_std_closed
      (virt_viewer_app_set_connect_info app_fresh (some "relay") (some "guest") (some "5900")
        (some "ssh") none (some "u") 2222).self).effects = [] ∧
    Effect.child_exit 1 ∈ (virt_viewer_app_activate env_std_closed
      (virt_viewer_app_set_connect_info app_fresh (some "relay") (some "guest") (some "5900")
        (some "ssh") none (some "u") 2222).self).effects := by
  intro s
  have hs : s = _ := set_connect_info_priv self host ghost gport transport unixsock user port
  have hport : s.priv.port = 0 := by rw [hs]
  refine ⟨hport, by rw [hs], by rw [hs], by rw [hs], by rw [hs], by rw [hs], by rw [hs],
    by rw [hs], ?_, ?_, ?_, ?_, ?_, by decide, by decide, by decide, by decide, by decide,
    by decide, by decide, by decide⟩
  · intro env argv hmem
    rw [activate_spawned env s argv hmem, hport]
    exact argv_port_unset _ _ _ _ _
  · intro env channel argv hmem
    rw [channel_open_spawned env channel s argv hmem, hport]
    exact argv_port_unset _ _ _ _ _
  · intro env ha hssh hx
    refine ⟨_, activate_spawns_tunnel env s ha hssh hx, ?_⟩
    rw [hport]
    exact argv_port_unset _ _ _ _ _
  · intro env channel hssh hx
    refine ⟨_, channel_open_spawns_tunnel env channel s hssh hx, ?_⟩
    rw [hport]
    exact argv_port_unset _ _ _ _ _
  · intro env hx
    cases hsp : spawned_argvs (virt_viewer_app_activate env s).effects with
    | nil => rfl
    | cons argv rest =>
      exfalso
      exact activate_no_spawn env s hx argv (by rw [hsp]; exact List.mem_cons_self _ _)

/-- C15: for every input of `virt_viewer_app_open_tunnel_ssh` the builder
makes 8 writes into the 10-slot array without a user and 10 with one,
terminator included, and every write hits a slot of the array (each
`cmd[n++] = p` writes slot n and then advances n, so the k-th write lands in
slot k-1). Afterwards slot n-1 holds the NULL terminator, the n-1 slots
before it still hold the arguments in order, so the terminator was written to
none of their positions, and the slots from n on are untouched; when all the
pointers passed in are non-NULL, `execvp` reads exactly those n-1 arguments. The
decimal rendering of any 32-bit relay port has at most 11 characters and, with
its terminating NUL, fits the 50-byte buffer. -/
theorem open_tunnel_ssh_cmd_in_bounds :
    (∀ (b : CmdBuf) (p : CStr),
      (b.put p).n = b.n + 1 ∧ (b.put p).cmd = b.cmd.set b.n (Slot.ptr p) ∧
      ((b.put p).in_bounds = true ↔ b.in_bounds = true ∧ b.n < b.cmd.length)) ∧
    (∀ (h : CStr) (p : Int) (u th tp s : CStr),
      (virt_viewer_app_open_tunnel_ssh_cmd h p u th tp s).cmd.length = 10 ∧
      (virt_viewer_app_open_tunnel_ssh_cmd h p u th tp s).n = (if u.isSome then 10 else 8) ∧
      8 ≤ (virt_viewer_app_open_tunnel_ssh_cmd h p u th tp s).n ∧
      (virt_viewer_app_open_tunnel_ssh_cmd h p u th tp s).n ≤ 10 ∧
      (virt_viewer_app_open_tunnel_ssh_cmd h p u th tp s).in_bounds = true ∧
      (virt_viewer_app_open_tunnel_ssh_cmd h p u th tp s).cmd.get?
        ((virt_viewer_app_open_tunnel_ssh_cmd h p u th tp s).n - 1) = some (Slot.ptr none) ∧
      (virt_viewer_app_open_tunnel_ssh_cmd h p u th tp s).written.getLast?
        = some (Slot.ptr none) ∧
      (virt_viewer_app_open_tunnel_ssh_cmd h p u th tp s).cmd
        = (tunnel_argv_spec h p u th tp s).dropLast.map Slot.ptr ++ [Slot.ptr none]
          ++ List.replicate (10 - (virt_viewer_app_open_tunnel_ssh_cmd h p u th tp s).n)
              Slot.uninit ∧
      (tunnel_argv_spec h p u th tp s).dropLast.length + 1
        = (virt_viewer_app_open_tunnel_ssh_cmd h p u th tp s).n) ∧
    (∀ (h : String) (p : Int) (u : CStr) (th tp s : String),
      (argv_of (virt_viewer_app_open_tunnel_ssh_cmd (some h) p u (some th) (some tp)
          (some s)).cmd).length + 1
        = (virt_viewer_app_open_tunnel_ssh_cmd (some h) p u (some th) (some tp) (some s)).n ∧
      (argv_of (virt_viewer_app_open_tunnel_ssh_cmd (some h) p u (some th) none
          (some s)).cmd).length + 1
        = (virt_viewer_app_open_tunnel_ssh_cmd (some h) p u (some th) none (some s)).n) ∧
    (∀ p : Int, is_int32 p →
      (sprintf_d p).length ≤ 11 ∧ sprintf_d_size p ≤ 50 ∧
      (sprintf_d (if p = 0 then 22 else p)).length ≤ 11 ∧
      sprintf_d_size (if p = 0 then 22 else p) ≤ 50) := by
  refine ⟨?_, ?_, ?_, ?_⟩
  · intro b p
    simp [CmdBuf.put]
  · intro h p u th tp s
    by_cases hp : p = 0
    · subst hp
      have h22 : sprintf_d 22 = "22" := by decide
      cases u <;> cases tp <;>
        simp [virt_viewer_app_open_tunnel_ssh_cmd, tunnel_argv_spec, CmdBuf.written,
          CmdBuf.put, CmdBuf.init, List.replicate, h22]
    · cases u <;> cases tp <;>
        simp [virt_viewer_app_open_tunnel_ssh_cmd, tunnel_argv_spec, hp, CmdBuf.written,
          CmdBuf.put, CmdBuf.init, List.replicate]
  · intro h p u th tp s
    cases u <;> exact ⟨rfl, rfl⟩
  · intro p hp
    have h32 : is_int32 (if p = 0 then 22 else p) := by
      unfold is_int32 at hp ⊢
      split <;> omega
    exact ⟨sprintf_d_length p hp, sprintf_d_size_le p hp, sprintf_d_length _ h32,
      sprintf_d_size_le _ h32⟩

end VirtViewer
